import Mathlib

/-!
# OpenWXR, `src/atmo_xp11.c`: the X-Plane 11 atmosphere back end

A shallow embedding of `atmo_xp11.c` and theorems about it.

Conventions of the embedding.

* C `double` values that the code only stores and compares (the Range, the
  thresholds of the colour classifier, the energy written) are rationals.
  The six threshold products `0.1 * 255`, `0.95 * 255`, `0.9 * 255`,
  `0.7 * 255`, `0.8 * 255`, `0.4 * 255` evaluate in IEEE double arithmetic
  to exactly 25.5, 242.25, 229.5, 178.5, 204 and 102, and `(k / 4.0) * 100`
  is exact for `k = 0..4`, so the rational values below are the values the
  C code compares against and writes.
* The floating-point expressions of lines 159-162 of `atmo_xp11_probe`
  (products of quotients with `sin` and `cos`, converted to `int`) are not
  evaluated by the embedding: the two `int` values they produce for sample
  `i` are inputs of the model (`xo i` and `yo i`), so every theorem about the
  probe holds for whatever the floating-point unit returns.
* `uint32_t` pixels are natural numbers, `uint64_t` time stamps are natural
  numbers with the addition of line 328 taken modulo `2 ^ 64`.
* The mutex appears as atomicity: every function that runs under the lock
  (`update_cb`, the two setters) is one step. The loop of `atmo_xp11_probe`
  runs outside the lock; `probe_racing` lets such steps run between its
  iterations.
* The expression of lines 159-162 is also given in exact rational arithmetic
  (`sample_offset`), for the inputs at which no floating-point operation
  rounds.
-/

namespace OpenWXR

/-! ## Constants (lines 38-44) -/

/-- Capture interval `UPD_INTVAL`, microseconds. -/
def UPD_INTVAL : Nat := 500000

/-- Width of the sampled display `EFIS_WIDTH`, pixels. -/
def EFIS_WIDTH : Int := 194

/-- Lateral centre `EFIS_LAT_PIX = EFIS_WIDTH / 2`. -/
def EFIS_LAT_PIX : Int := EFIS_WIDTH / 2

/-- Aft half-extent `EFIS_LON_AFT`. -/
def EFIS_LON_AFT : Int := 134

/-- Forward half-extent `EFIS_LON_FWD`. -/
def EFIS_LON_FWD : Int := 134

/-- Height of the sampled display `EFIS_HEIGHT = EFIS_LON_FWD + EFIS_LON_AFT`. -/
def EFIS_HEIGHT : Int := EFIS_LON_FWD + EFIS_LON_AFT

/-- Number of pixels of one snapshot, `EFIS_WIDTH * EFIS_HEIGHT`. -/
def EFIS_PIXELS : Nat := (EFIS_WIDTH * EFIS_HEIGHT).toNat

/-! ## State (lines 83-98) -/

/-- The global `xp11_atmo` (without its lock). `pixels = none` is the NULL
pointer; `xfer_sync = 0` is "no fence"; `pbo = 0` is "no buffer object". -/
structure xp11_atmo_t where
  pixels : Option (List Nat)
  range : ℚ
  last_update : Nat
  efis_x : Nat
  efis_y : Nat
  efis_w : Nat
  efis_h : Nat
  pbo : Nat
  xfer_sync : Nat

/-- The part of a `scan_line_t` that `atmo_xp11_probe` reads and writes once
the floating-point coordinates are given: the sample count and the two output
arrays (C pointers, modelled as maps from index to value). -/
structure scan_line_t where
  num_samples : Nat
  energy_out : Nat → ℚ
  doppler_out : Nat → ℚ

/-! ## The probe (lines 146-225) -/

/-- Store `v` at index `i` of a C array. -/
def store (a : Nat → ℚ) (i : Nat) (v : ℚ) : Nat → ℚ :=
  fun j => if j = i then v else a j

/-- Lines 182-185: the four channels of a packed pixel. -/
def unpack (sample : Nat) : Int × Int × Int × Int :=
  (((sample &&& 0xff : Nat) : Int),
   ((((sample &&& 0xff00) >>> 8 : Nat)) : Int),
   ((((sample &&& 0xff0000) >>> 16 : Nat)) : Int),
   ((((sample &&& 0xff000000) >>> 24 : Nat)) : Int))

/-- Line 181: the word `pixels[y * EFIS_WIDTH + x]`. The C read is unchecked;
past the end of the buffer the value is 0 here. -/
def pixel_at (pixels : List Nat) (x y : Int) : Nat :=
  pixels.getD (y * EFIS_WIDTH + x).toNat 0

/-- Lines 180-191: the channels read for the in-bounds coordinate `(x, y)`.
Without a snapshot all four are 0. -/
def read_rgba (a : xp11_atmo_t) (x y : Int) : Int × Int × Int × Int :=
  match a.pixels with
  | some pixels => unpack (pixel_at pixels x y)
  | none => (0, 0, 0, 0)

/-- Lines 193-221: the intensity level of a pixel. -/
def classify (red green blue alpha : Int) : Int :=
  if (blue : ℚ) > 0.1 * 255 then
    if (alpha : ℚ) < 0.95 * 255 then 0
    else if (red : ℚ) > 0.9 * 255 ∧ (green : ℚ) > 0.9 * 255 then 3
    else if (red : ℚ) > 0.9 * 255 then 4
    else if (green : ℚ) > 0.9 * 255 then 1
    else if (green : ℚ) > 0.7 * 255 then 2
    else 0
  else
    if (alpha : ℚ) < 0.95 * 255 then 0
    else if (red : ℚ) > 0.9 * 255 ∧ (green : ℚ) > 0.9 * 255 then 3
    else if (red : ℚ) > 0.9 * 255 then 4
    else if (green : ℚ) > 0.8 * 255 then 1
    else if (green : ℚ) > 0.4 * 255 then 2
    else 0

/-- Line 223: `(intens / 4.0) * 100`. -/
def energy_of (intens : Int) : ℚ :=
  ((intens : ℚ) / 4.0) * 100

/-- The bounds test of line 175. -/
def out_of_bounds (x y : Int) : Prop :=
  x < 0 ∨ x ≥ EFIS_WIDTH ∨ y < 0 ∨ y ≥ EFIS_HEIGHT

instance (x y : Int) : Decidable (out_of_bounds x y) := by
  unfold out_of_bounds; infer_instance

/-- One iteration of the loop of lines 158-224 for sample `i`; `xo i` and
`yo i` are the `int` values that lines 159-162 compute. The translations of
lines 170-171 are additions of integers (C leaves their overflow undefined). -/
def probe_sample (a : xp11_atmo_t) (xo yo : Nat → Int) (sl : scan_line_t) (i : Nat) :
    scan_line_t :=
  let x := xo i + EFIS_LAT_PIX
  let y := yo i + EFIS_LON_AFT
  let sl1 := { sl with doppler_out := store sl.doppler_out i 0 }
  if out_of_bounds x y then
    { sl1 with energy_out := store sl1.energy_out i 0 }
  else
    match read_rgba a x y with
    | (red, green, blue, alpha) =>
      { sl1 with energy_out := store sl1.energy_out i (energy_of (classify red green blue alpha)) }

/-- The loop `for (i = 0; i < sl->num_samples; i++)` run for `n` iterations. -/
def probe_loop (a : xp11_atmo_t) (xo yo : Nat → Int) (sl : scan_line_t) : Nat → scan_line_t
  | 0 => sl
  | n + 1 => probe_sample a xo yo (probe_loop a xo yo sl n) n

/-- The function `atmo_xp11_probe`: fills `energy_out` and `doppler_out`. -/
def atmo_xp11_probe (a : xp11_atmo_t) (xo yo : Nat → Int) (sl : scan_line_t) : scan_line_t :=
  probe_loop a xo yo sl sl.num_samples

/-- Energy that one iteration of the probe loop writes for the image
coordinate `(x, y)` (lines 175-223 as a function of the coordinate). -/
def sample_energy (a : xp11_atmo_t) (x y : Int) : ℚ :=
  if out_of_bounds x y then 0
  else
    match read_rgba a x y with
    | (red, green, blue, alpha) => energy_of (classify red green blue alpha)

/-- The byte made of bits `lo .. lo + 7` of the word `w`. -/
def bits (w lo : Nat) : Nat :=
  w / 2 ^ lo % 256

/-- The decision tree of the specification (section 4.3, steps 6 and 7) over
the four channel bytes of a pixel, with integer thresholds. -/
def spec_energy (red green blue alpha : Nat) : ℚ :=
  if alpha ≤ 242 then 0
  else if red ≥ 230 ∧ green ≥ 230 then 75
  else if red ≥ 230 then 100
  else if blue ≥ 26 then
    if green ≥ 230 then 25
    else if 179 ≤ green ∧ green ≤ 229 then 50
    else 0
  else
    if green ≥ 205 then 25
    else if 103 ≤ green ∧ green ≤ 204 then 50
    else 0

/-! ## Range tiers (lines 61-81, 227-235) -/

/-- Modelled from the spec: the macro `NM2MET` comes from libacfutils and is
not part of this file; the thresholds are nautical miles converted to metres,
1852 metres to the mile. -/
def NM2MET (x : ℚ) : ℚ := x * 1852

/-- The enumerator `EFIS_MAP_RANGE_640NM` of `efis_map_range_t`. -/
def EFIS_MAP_RANGE_640NM : Nat := 6

/-- The enumerator `EFIS_MAP_NUM_RANGES` of `efis_map_range_t`. -/
def EFIS_MAP_NUM_RANGES : Nat := 7

/-- The table `efis_map_ranges`, in the order of `efis_map_range_t`. -/
def efis_map_ranges : List ℚ :=
  [NM2MET 10, NM2MET 20, NM2MET 40, NM2MET 80, NM2MET 160, NM2MET 320, NM2MET 640]

/-- The loop of lines 230-233 from index `i` on, over the rest `ts` of the
table, followed by the `return` of line 234. -/
def range_select_loop (range : ℚ) : List ℚ → Nat → Nat
  | [], _ => EFIS_MAP_RANGE_640NM
  | t :: ts, i => if range ≤ t then i else range_select_loop range ts (i + 1)

/-- The function `efis_map_range_select`. -/
def efis_map_range_select (a : xp11_atmo_t) : Nat :=
  range_select_loop a.range efis_map_ranges 0

/-! ## Host side: data references, GL objects, calls made -/

/-- Value `XPLANE_RENDER_GAUGES_3D_LIT` of the render-type enumeration
(lines 55-59). -/
def XPLANE_RENDER_GAUGES_3D_LIT : Int := 2

/-- The display-mode data references `drs.EFIS` (lines 123-135), as the
values the host holds for them. -/
structure efis_drs_t where
  mode : Int
  submode : Int
  range : Int
  shows_wx : Int
  wx_alpha : ℚ
  shows_tcas : Int
  shows_arpts : Int
  shows_wpts : Int
  shows_VORs : Int
  shows_NDBs : Int
  kill_map_fms_line : Int

/-- Names of the display-mode data references. -/
inductive efis_dr_t where
  | mode
  | submode
  | range
  | shows_wx
  | wx_alpha
  | shows_tcas
  | shows_arpts
  | shows_wpts
  | shows_VORs
  | shows_NDBs
  | kill_map_fms_line
  deriving DecidableEq

/-- Results of `glClientWaitSync`. -/
inductive wait_t where
  | GL_ALREADY_SIGNALED
  | GL_TIMEOUT_EXPIRED
  | GL_CONDITION_SATISFIED
  | GL_WAIT_FAILED
  deriving DecidableEq

/-- Calls with an effect outside `xp11_atmo` that a tick makes, in order
(`glBindBuffer` is left out). -/
inductive call_t where
  | calloc
  | glGenBuffers
  | glBufferData
  | glClientWaitSync (sync : Nat)
  | glMapBuffer
  | memcpy
  | glUnmapBuffer
  | glReadPixels (x y : Nat)
  | glFenceSync
  | dr_seti (dr : efis_dr_t) (v : Int)
  deriving DecidableEq

/-- What the host answers during one tick of `update_cb`: the render type
read through `drs.render_type`, the time `microclock()` returns (a
`uint64_t`), the buffer name `glGenBuffers` writes, the result of
`glClientWaitSync`, whether `glMapBuffer` returns a non-NULL pointer, the
sync object `glFenceSync` returns (0 on failure), and the frame buffer:
`framebuffer x y k` is pixel `k` of the `EFIS_WIDTH` by `EFIS_HEIGHT`
rectangle whose origin is `(x, y)`. -/
structure host_t where
  render_type : Int
  now : Nat
  gen_buffer : Nat
  wait : wait_t
  map_ok : Bool
  fence : Nat
  framebuffer : Nat → Nat → Nat → Nat

/-- Everything the file's functions act on: the flag `inited`, the global
`xp11_atmo`, the display-mode data references and the data store of the
pixel-pack buffer object (the transfer buffer), word by word. An asynchronous
`glReadPixels` into the buffer is modelled as filling the data store when it
is issued; the code reads the store only after the fence has signalled. -/
structure world_t where
  inited : Bool
  xp11_atmo : xp11_atmo_t
  EFIS : efis_drs_t
  pbo_data : Nat → Nat

/-! ## Setters and initialisation (lines 138-144, 345-399, 415-429) -/

/-- The function `atmo_xp11_set_range`. -/
def atmo_xp11_set_range (range : ℚ) (w : world_t) : world_t :=
  { w with xp11_atmo := { w.xp11_atmo with range := range } }

/-- The function `atmo_xp11_set_efis_pos`: `free(NULL)` is a no-op, so both
cases of `pixels` end with `pixels = NULL`. -/
def atmo_xp11_set_efis_pos (x y w h : Nat) (s : world_t) : world_t :=
  { s with xp11_atmo :=
      { s.xp11_atmo with efis_x := x, efis_y := y, efis_w := w, efis_h := h, pixels := none } }

/-- The function `atmo_xp11_init`: `ASSERT(!inited)` fails (`none`) when the
module is already initialised; otherwise `xp11_atmo` is zeroed by `memset`. -/
def atmo_xp11_init (w : world_t) : Option world_t :=
  if w.inited then none
  else some
    { w with
      inited := true
      xp11_atmo :=
        { pixels := none, range := 0, last_update := 0, efis_x := 0, efis_y := 0,
          efis_w := 0, efis_h := 0, pbo := 0, xfer_sync := 0 } }

/-! ## The display-mode synchroniser (lines 237-270) -/

/-- The enumerator `EFIS_MODE_NORM` (line 241). -/
def EFIS_MODE_NORM : Int := 1

/-- The enumerator `EFIS_SUBMODE_GOOD_MAP` (line 245). -/
def EFIS_SUBMODE_GOOD_MAP : Int := 5

/-- The function `update_efis`: the display-mode data references after the
eleven write-if-different steps, and the `dr_seti` calls made, in order. -/
def update_efis (a : xp11_atmo_t) (d : efis_drs_t) : efis_drs_t × List call_t :=
  let sel : Int := (efis_map_range_select a : Nat)
  ({ mode := if d.mode ≠ EFIS_MODE_NORM then EFIS_MODE_NORM else d.mode
     submode := if d.submode ≠ EFIS_SUBMODE_GOOD_MAP then EFIS_SUBMODE_GOOD_MAP else d.submode
     range := if d.range ≠ sel then sel else d.range
     shows_wx := if d.shows_wx ≠ 1 then 1 else d.shows_wx
     wx_alpha := if d.wx_alpha ≠ 1.0 then 1 else d.wx_alpha
     shows_tcas := if d.shows_tcas ≠ 0 then 0 else d.shows_tcas
     shows_arpts := if d.shows_arpts ≠ 0 then 0 else d.shows_arpts
     shows_wpts := if d.shows_wpts ≠ 0 then 0 else d.shows_wpts
     shows_VORs := if d.shows_VORs ≠ 0 then 0 else d.shows_VORs
     shows_NDBs := if d.shows_NDBs ≠ 0 then 0 else d.shows_NDBs
     kill_map_fms_line := if d.kill_map_fms_line = 0 then 1 else d.kill_map_fms_line },
   (if d.mode ≠ EFIS_MODE_NORM then [call_t.dr_seti efis_dr_t.mode EFIS_MODE_NORM] else []) ++
   (if d.submode ≠ EFIS_SUBMODE_GOOD_MAP then
      [call_t.dr_seti efis_dr_t.submode EFIS_SUBMODE_GOOD_MAP] else []) ++
   (if d.range ≠ sel then [call_t.dr_seti efis_dr_t.range sel] else []) ++
   (if d.shows_wx ≠ 1 then [call_t.dr_seti efis_dr_t.shows_wx 1] else []) ++
   (if d.wx_alpha ≠ 1.0 then [call_t.dr_seti efis_dr_t.wx_alpha 1] else []) ++
   (if d.shows_tcas ≠ 0 then [call_t.dr_seti efis_dr_t.shows_tcas 0] else []) ++
   (if d.shows_arpts ≠ 0 then [call_t.dr_seti efis_dr_t.shows_arpts 0] else []) ++
   (if d.shows_wpts ≠ 0 then [call_t.dr_seti efis_dr_t.shows_wpts 0] else []) ++
   (if d.shows_VORs ≠ 0 then [call_t.dr_seti efis_dr_t.shows_VORs 0] else []) ++
   (if d.shows_NDBs ≠ 0 then [call_t.dr_seti efis_dr_t.shows_NDBs 0] else []) ++
   (if d.kill_map_fms_line = 0 then [call_t.dr_seti efis_dr_t.kill_map_fms_line 1] else []))

/-! ## The draw callback (lines 272-343) -/

/-- The call `calloc(EFIS_WIDTH * EFIS_HEIGHT, sizeof (*pixels))` of line 292
(taken to succeed): a zeroed buffer. -/
def calloc_pixels : List Nat :=
  List.replicate EFIS_PIXELS 0

/-- The call `memcpy(dst, src, n * sizeof (uint32_t))`: the first `n` words of
`dst` become the first `n` words of `src`. -/
def memcpy (dst : List Nat) (src : Nat → Nat) (n : Nat) : List Nat :=
  (List.range n).map src ++ dst.drop n

/-- Lines 289-294 after the zero-size test: allocate the snapshot if there is
none. -/
def alloc_pixels (a : xp11_atmo_t) : xp11_atmo_t × List call_t :=
  match a.pixels with
  | none => ({ a with pixels := some calloc_pixels }, [call_t.calloc])
  | some _ => (a, [])

/-- Lines 296-302: create the transfer buffer object if there is none. -/
def alloc_pbo (h : host_t) (a : xp11_atmo_t) : xp11_atmo_t × List call_t :=
  if a.pbo = 0 then
    ({ a with pbo := h.gen_buffer }, [call_t.glGenBuffers, call_t.glBufferData])
  else (a, [])

/-- Lines 304-336: poll the outstanding fence and copy the transfer buffer
into the snapshot when the wait does not time out, or issue a new capture when
no fence is outstanding and the interval has elapsed. The result is the new
`xp11_atmo`, the new data store of the transfer buffer, and the calls made. -/
def transfer (h : host_t) (a : xp11_atmo_t) (pbo_data : Nat → Nat) :
    xp11_atmo_t × (Nat → Nat) × List call_t :=
  if a.xfer_sync ≠ 0 then
    if h.wait ≠ wait_t.GL_TIMEOUT_EXPIRED then
      if h.map_ok then
        ({ a with
           pixels := a.pixels.map (fun dst => memcpy dst pbo_data EFIS_PIXELS)
           xfer_sync := 0 },
         pbo_data,
         [call_t.glClientWaitSync a.xfer_sync, call_t.glMapBuffer, call_t.memcpy,
          call_t.glUnmapBuffer])
      else
        ({ a with xfer_sync := 0 }, pbo_data,
         [call_t.glClientWaitSync a.xfer_sync, call_t.glMapBuffer])
    else (a, pbo_data, [call_t.glClientWaitSync a.xfer_sync])
  else if (a.last_update + UPD_INTVAL) % 2 ^ 64 ≤ h.now then
    ({ a with xfer_sync := h.fence, last_update := h.now },
     h.framebuffer a.efis_x a.efis_y,
     [call_t.glReadPixels a.efis_x a.efis_y, call_t.glFenceSync])
  else (a, pbo_data, [])

/-- Outcome of one tick: the new world, the calls made, and the value
returned to the host. -/
structure tick_t where
  world : world_t
  calls : List call_t
  status : Int

/-- The function `update_cb`, one tick of the draw callback. -/
def update_cb (h : host_t) (w : world_t) : tick_t :=
  if h.render_type ≠ XPLANE_RENDER_GAUGES_3D_LIT then
    { world := w, calls := [], status := 1 }
  else if w.xp11_atmo.pixels = none ∧ (w.xp11_atmo.efis_w = 0 ∨ w.xp11_atmo.efis_h = 0) then
    { world := w, calls := [], status := 1 }
  else
    let r1 := alloc_pixels w.xp11_atmo
    let r2 := alloc_pbo h r1.1
    let r3 := transfer h r2.1 w.pbo_data
    let r4 := update_efis r3.1 w.EFIS
    { world := { w with xp11_atmo := r3.1, EFIS := r4.1, pbo_data := r3.2.1 }
      calls := r1.2 ++ r2.2 ++ r3.2.2 ++ r4.2
      status := 1 }

/-- The world after the ticks answered by `hs`, in order. -/
def run_ticks (hs : List host_t) (w : world_t) : world_t :=
  hs.foldl (fun s h => (update_cb h s).world) w

/-- Whether a call is a `glReadPixels`. -/
def is_glReadPixels : call_t → Bool
  | call_t.glReadPixels _ _ => true
  | _ => false

/-- A tick issues a capture when it calls `glReadPixels`. -/
def issues_capture (t : tick_t) : Bool :=
  t.calls.any is_glReadPixels

/-! ## Sample data -/

/-- Snapshot whose every pixel is the word `w`. -/
def uniform_atmo (w : Nat) : xp11_atmo_t :=
  { pixels := some (List.replicate EFIS_PIXELS w), range := 18520, last_update := 0,
    efis_x := 0, efis_y := 0, efis_w := 194, efis_h := 268, pbo := 1, xfer_sync := 0 }

/-- Scan line of `n` samples with both output arrays holding 7 everywhere. -/
def blank_line (n : Nat) : scan_line_t :=
  { num_samples := n, energy_out := fun _ => 7, doppler_out := fun _ => 7 }

/-- World with the snapshot `uniform_atmo w`, display flags all 0 and a
transfer buffer holding the word `0xff20b310` everywhere. -/
def uniform_world (w : Nat) : world_t :=
  { inited := true
    xp11_atmo := uniform_atmo w
    EFIS :=
      { mode := 0, submode := 0, range := 0, shows_wx := 0, wx_alpha := 0, shows_tcas := 0,
        shows_arpts := 0, shows_wpts := 0, shows_VORs := 0, shows_NDBs := 0,
        kill_map_fms_line := 0 }
    pbo_data := fun _ => 0xff20b310 }

/-- The thresholds of the specification: tier `i` is `(10, 20, 40, 80, 160, 320,
640)` nautical miles, converted to metres. -/
def tier_threshold (i : Nat) : ℚ :=
  NM2MET ([10, 20, 40, 80, 160, 320, 640].getD i 0)

/-- World `uniform_world w` with the fence `sync` outstanding. -/
def pending_world (w sync : Nat) : world_t :=
  { uniform_world w with xp11_atmo := { uniform_atmo w with xfer_sync := sync } }

/-- Host answers of a tick in the lit-gauges render phase at time `now`: the
wait returns `wait`, `glMapBuffer` succeeds when `map_ok`, `glGenBuffers`
gives name 1, `glFenceSync` gives fence 9, and pixel `k` of the rectangle at
`(x, y)` is `x + y + k`. -/
def lit_tick (now : Nat) (wait : wait_t) (map_ok : Bool) : host_t :=
  { render_type := 2, now := now, gen_buffer := 1, wait := wait, map_ok := map_ok, fence := 9,
    framebuffer := fun x y k => x + y + k }

/-! ## Runs of calls after initialisation -/

/-- The calls made on the module after `atmo_xp11_init`: the two setters and
the ticks of the draw callback, each tick with what the host answers. -/
inductive op_t where
  | set_range (range : ℚ)
  | set_efis_pos (x y w h : Nat)
  | tick (h : host_t)

/-- The world after one call. -/
def apply_op (o : op_t) (s : world_t) : world_t :=
  match o with
  | op_t.set_range range => atmo_xp11_set_range range s
  | op_t.set_efis_pos x y w h => atmo_xp11_set_efis_pos x y w h s
  | op_t.tick h => (update_cb h s).world

/-- The world after the calls `ops`, in order. -/
def run_ops (ops : List op_t) (s : world_t) : world_t :=
  ops.foldl (fun t o => apply_op o t) s

/-- States reachable from `atmo_xp11_init` by a sequence of calls. -/
def reachable (s : world_t) : Prop :=
  ∃ w0 w1 ops, atmo_xp11_init w0 = some w1 ∧ run_ops ops w1 = s

/-- The times `now` of the ticks of a run that issued a capture, in order. -/
def issue_times : List op_t → world_t → List Nat
  | [], _ => []
  | op_t.tick h :: ops, s =>
    if issues_capture (update_cb h s) then h.now :: issue_times ops (update_cb h s).world
    else issue_times ops (update_cb h s).world
  | o :: ops, s => issue_times ops (apply_op o s)

/-- The argument of the last `atmo_xp11_set_range` call among `ops`, and `r0`
when there is none. -/
def last_set_range : List op_t → ℚ → ℚ
  | [], r0 => r0
  | op_t.set_range range :: ops, _ => last_set_range ops range
  | _ :: ops, r0 => last_set_range ops r0

/-- A world before `atmo_xp11_init`: not initialised, junk in `xp11_atmo`,
display flags all 0, transfer buffer store all 0. -/
def boot_world : world_t :=
  { inited := false
    xp11_atmo :=
      { pixels := none, range := 7, last_update := 3, efis_x := 1, efis_y := 1, efis_w := 1,
        efis_h := 1, pbo := 0, xfer_sync := 0 }
    EFIS :=
      { mode := 0, submode := 0, range := 0, shows_wx := 0, wx_alpha := 0, shows_tcas := 0,
        shows_arpts := 0, shows_wpts := 0, shows_VORs := 0, shows_NDBs := 0,
        kill_map_fms_line := 0 }
    pbo_data := fun _ => 0 }

/-- The world right after `atmo_xp11_init` on `boot_world`. -/
def init_world : world_t :=
  { boot_world with
    inited := true
    xp11_atmo :=
      { pixels := none, range := 0, last_update := 0, efis_x := 0, efis_y := 0,
        efis_w := 0, efis_h := 0, pbo := 0, xfer_sync := 0 } }

/-- A run in which the region changes while a capture is in flight: the region
is set to the rectangle at `(0, 0)`, a tick at time 600000 issues a capture of
it, the region is moved to `(500, 500)`, and the next tick finds the fence
signalled. -/
def stale_run : List op_t :=
  [op_t.set_efis_pos 0 0 194 268,
   op_t.tick (lit_tick 600000 wait_t.GL_TIMEOUT_EXPIRED true),
   op_t.set_efis_pos 500 500 194 268,
   op_t.tick (lit_tick 600100 wait_t.GL_ALREADY_SIGNALED true)]

/-! ## The probe next to the draw thread -/

/-- The loop of `atmo_xp11_probe` with other threads running. The probe holds
the lock only while it copies the Range (lines 154-156); the loop of lines
158-224 reads `xp11_atmo.pixels` without it. `update_cb` and the setters run
under the lock, each as one step, and nothing keeps such a step from running
between two iterations of the loop: `sched i` lists the calls that run just
before iteration `i`. The result is the world and the scan line after `n`
iterations. -/
def probe_racing (sched : Nat → List op_t) (xo yo : Nat → Int) :
    Nat → world_t × scan_line_t → world_t × scan_line_t
  | 0, ws => ws
  | n + 1, ws =>
    let r := probe_racing sched xo yo n ws
    let w := run_ops (sched n) r.1
    (w, probe_sample w.xp11_atmo xo yo r.2 n)

/-- The schedule in which one tick of the draw callback, finding the fence
signalled, runs between iterations 0 and 1 of the probe loop. -/
def tick_between : Nat → List op_t :=
  fun i => if i = 1 then [op_t.tick (lit_tick 100 wait_t.GL_ALREADY_SIGNALED true)] else []

/-! ## The coordinates of a sample (lines 159-162) -/

/-- Conversion of a `double` to `int`: the fractional part is discarded
(truncation toward zero). -/
def double_to_int (q : ℚ) : Int :=
  q.num.tdiv q.den

/-- The expression of lines 159-162,
`(((double)i + 1) / sl->num_samples) * (sl->range / range) * EFIS_LON_FWD * trig`
converted to `int`, in exact arithmetic; `trig` is `sin_rhdg` for `x` and
`cos_rhdg` for `y`. Exact arithmetic gives the value the C code computes
whenever no operation of the expression rounds, as for a sample at the full
display range straight ahead, where the operands are 1, 1, 134 and 0 or 1. -/
def sample_offset (num_samples : Nat) (sl_range range trig : ℚ) (i : Nat) : Int :=
  double_to_int ((((i : ℚ) + 1) / (num_samples : ℚ)) * (sl_range / range) *
    ((EFIS_LON_FWD : Int) : ℚ) * trig)

/-! ## Lemmas: pixel unpacking -/

theorem mask_shift (s k : Nat) : (s &&& (255 <<< k)) >>> k = s / 2 ^ k % 256 := by
  apply Nat.eq_of_testBit_eq
  intro i
  have h255 : (255 : Nat) = 2 ^ 8 - 1 := by norm_num
  have h256 : (256 : Nat) = 2 ^ 8 := by norm_num
  rw [h255, h256, Nat.testBit_mod_two_pow, ← Nat.shiftRight_eq_div_pow]
  simp only [Nat.testBit_shiftRight, Nat.testBit_and, Nat.testBit_shiftLeft,
    Nat.testBit_two_pow_sub_one]
  by_cases h : i < 8 <;> simp [h, Bool.and_comm]

theorem unpack_eq (s : Nat) :
    unpack s = (((s % 256 : Nat) : Int), ((s / 256 % 256 : Nat) : Int),
      ((s / 65536 % 256 : Nat) : Int), ((s / 16777216 % 256 : Nat) : Int)) := by
  have h0 : s &&& 0xff = s % 256 := by simpa using mask_shift s 0
  have h1 : (s &&& 0xff00) >>> 8 = s / 256 % 256 := mask_shift s 8
  have h2 : (s &&& 0xff0000) >>> 16 = s / 65536 % 256 := mask_shift s 16
  have h3 : (s &&& 0xff000000) >>> 24 = s / 16777216 % 256 := mask_shift s 24
  simp only [unpack, h0, h1, h2, h3]

/-! ## Lemmas: the probe loop -/

theorem probe_sample_num_samples (a : xp11_atmo_t) (xo yo : Nat → Int) (sl : scan_line_t)
    (i : Nat) : (probe_sample a xo yo sl i).num_samples = sl.num_samples := by
  unfold probe_sample
  dsimp only
  split_ifs <;> rfl

theorem probe_sample_energy (a : xp11_atmo_t) (xo yo : Nat → Int) (sl : scan_line_t)
    (i j : Nat) : (probe_sample a xo yo sl i).energy_out j =
      if j = i then sample_energy a (xo i + EFIS_LAT_PIX) (yo i + EFIS_LON_AFT)
      else sl.energy_out j := by
  unfold probe_sample sample_energy
  dsimp only
  split_ifs <;> simp_all [store]

theorem probe_sample_doppler (a : xp11_atmo_t) (xo yo : Nat → Int) (sl : scan_line_t)
    (i j : Nat) : (probe_sample a xo yo sl i).doppler_out j =
      if j = i then 0 else sl.doppler_out j := by
  unfold probe_sample
  dsimp only
  split_ifs <;> simp_all [store]

theorem probe_loop_energy (a : xp11_atmo_t) (xo yo : Nat → Int) (sl : scan_line_t)
    (n j : Nat) : (probe_loop a xo yo sl n).energy_out j =
      if j < n then sample_energy a (xo j + EFIS_LAT_PIX) (yo j + EFIS_LON_AFT)
      else sl.energy_out j := by
  induction n with
  | zero => simp [probe_loop]
  | succ n ih =>
    rw [probe_loop, probe_sample_energy, ih]
    by_cases h1 : j = n
    · subst h1; simp
    · by_cases h2 : j < n
      · have : j < n + 1 := by omega
        simp [h1, h2, this]
      · have : ¬ j < n + 1 := by omega
        simp [h1, h2, this]

theorem probe_loop_doppler (a : xp11_atmo_t) (xo yo : Nat → Int) (sl : scan_line_t)
    (n j : Nat) : (probe_loop a xo yo sl n).doppler_out j =
      if j < n then 0 else sl.doppler_out j := by
  induction n with
  | zero => simp [probe_loop]
  | succ n ih =>
    rw [probe_loop, probe_sample_doppler, ih]
    by_cases h1 : j = n
    · subst h1; simp
    · by_cases h2 : j < n
      · have : j < n + 1 := by omega
        simp [h1, h2, this]
      · have : ¬ j < n + 1 := by omega
        simp [h1, h2, this]

/-! ## Lemmas: the classifier -/

theorem getD_replicate_lt (n i a d : Nat) (h : i < n) : (List.replicate n a).getD i d = a := by
  rw [List.getD_eq_getElem?_getD, List.getElem?_replicate]
  simp [h]

theorem pixel_at_uniform (w : Nat) (x y : Int) (h : (y * EFIS_WIDTH + x).toNat < EFIS_PIXELS) :
    pixel_at (List.replicate EFIS_PIXELS w) x y = w :=
  getD_replicate_lt _ _ _ _ h

theorem int_gt_iff (v k : Int) (q : ℚ) (hlo : (k : ℚ) - 1 ≤ q) (hhi : q < k) :
    (v : ℚ) > q ↔ k ≤ v := by
  constructor
  · intro h
    by_contra hc
    have h1 : v ≤ k - 1 := by omega
    have h2 : (v : ℚ) ≤ (k : ℚ) - 1 := by exact_mod_cast h1
    linarith
  · intro h
    have h2 : (k : ℚ) ≤ v := by exact_mod_cast h
    linarith

theorem int_lt_iff (v k : Int) (q : ℚ) (hlo : (k : ℚ) < q) (hhi : q ≤ k + 1) :
    (v : ℚ) < q ↔ v ≤ k := by
  constructor
  · intro h
    by_contra hc
    have h1 : k + 1 ≤ v := by omega
    have h2 : (k : ℚ) + 1 ≤ v := by exact_mod_cast h1
    linarith
  · intro h
    have h2 : (v : ℚ) ≤ k := by exact_mod_cast h
    linarith

/-- The classifier with the comparisons against doubles turned into
comparisons between integers. -/
theorem classify_int (red green blue alpha : Int) :
    classify red green blue alpha =
      if 26 ≤ blue then
        if alpha ≤ 242 then 0
        else if 230 ≤ red ∧ 230 ≤ green then 3
        else if 230 ≤ red then 4
        else if 230 ≤ green then 1
        else if 179 ≤ green then 2
        else 0
      else
        if alpha ≤ 242 then 0
        else if 230 ≤ red ∧ 230 ≤ green then 3
        else if 230 ≤ red then 4
        else if 205 ≤ green then 1
        else if 103 ≤ green then 2
        else 0 := by
  have hb := int_gt_iff blue 26 (0.1 * 255) (by norm_num) (by norm_num)
  have ha := int_lt_iff alpha 242 (0.95 * 255) (by norm_num) (by norm_num)
  have hr := int_gt_iff red 230 (0.9 * 255) (by norm_num) (by norm_num)
  have hg9 := int_gt_iff green 230 (0.9 * 255) (by norm_num) (by norm_num)
  have hg7 := int_gt_iff green 179 (0.7 * 255) (by norm_num) (by norm_num)
  have hg8 := int_gt_iff green 205 (0.8 * 255) (by norm_num) (by norm_num)
  have hg4 := int_gt_iff green 103 (0.4 * 255) (by norm_num) (by norm_num)
  unfold classify
  simp only [hb, ha, hr, hg9, hg7, hg8, hg4]

theorem classify_range (red green blue alpha : Int) :
    classify red green blue alpha = 0 ∨ classify red green blue alpha = 1 ∨
    classify red green blue alpha = 2 ∨ classify red green blue alpha = 3 ∨
    classify red green blue alpha = 4 := by
  rw [classify_int]
  split_ifs <;> simp

theorem sample_energy_range (a : xp11_atmo_t) (x y : Int) :
    sample_energy a x y = 0 ∨ sample_energy a x y = 25 ∨ sample_energy a x y = 50 ∨
    sample_energy a x y = 75 ∨ sample_energy a x y = 100 := by
  unfold sample_energy
  split_ifs
  · left; rfl
  · rcases classify_range (read_rgba a x y).1 (read_rgba a x y).2.1 (read_rgba a x y).2.2.1
      (read_rgba a x y).2.2.2 with h | h | h | h | h <;>
    · simp only [h, energy_of]; norm_num

theorem sample_energy_in (a : xp11_atmo_t) (pixels : List Nat) (x y : Int)
    (hp : a.pixels = some pixels) (hin : ¬ out_of_bounds x y) :
    sample_energy a x y =
      energy_of (classify (bits (pixel_at pixels x y) 0) (bits (pixel_at pixels x y) 8)
        (bits (pixel_at pixels x y) 16) (bits (pixel_at pixels x y) 24)) := by
  unfold sample_energy
  rw [if_neg hin]
  simp only [read_rgba, hp, unpack_eq, bits]
  norm_num

theorem energy_classify_eq_spec (r g b al : Nat) :
    energy_of (classify (r : Int) (g : Int) (b : Int) (al : Int)) = spec_energy r g b al := by
  rw [classify_int]
  have e1 : ((26 : Int) ≤ (b : Int)) ↔ b ≥ 26 := by omega
  have e2 : ((al : Int) ≤ 242) ↔ al ≤ 242 := by omega
  have e3 : ((230 : Int) ≤ (r : Int)) ↔ r ≥ 230 := by omega
  have e4 : ((230 : Int) ≤ (g : Int)) ↔ g ≥ 230 := by omega
  have e5 : ((179 : Int) ≤ (g : Int)) ↔ 179 ≤ g := by omega
  have e6 : ((205 : Int) ≤ (g : Int)) ↔ g ≥ 205 := by omega
  have e7 : ((103 : Int) ≤ (g : Int)) ↔ 103 ≤ g := by omega
  simp only [e1, e2, e3, e4, e5, e6, e7]
  unfold spec_energy
  by_cases h1 : al ≤ 242
  · simp [h1, energy_of]
  by_cases h2 : r ≥ 230
  · by_cases h3 : g ≥ 230
    · simp [h1, h2, h3, energy_of]; norm_num
    · simp [h1, h2, h3, energy_of]; norm_num
  by_cases h3 : g ≥ 230
  · have h4 : g ≥ 205 := by omega
    simp [h1, h2, h3, h4, energy_of]; norm_num
  by_cases h5 : b ≥ 26
  · by_cases h6 : 179 ≤ g
    · have h7 : g ≤ 229 := by omega
      simp [h1, h2, h3, h5, h6, h7, energy_of]; norm_num
    · simp [h1, h2, h3, h5, h6, energy_of]
  · by_cases h6 : g ≥ 205
    · simp [h1, h2, h3, h5, h6, energy_of]; norm_num
    · by_cases h7 : 103 ≤ g
      · have h8 : g ≤ 204 := by omega
        simp [h1, h2, h3, h5, h6, h7, h8, energy_of]; norm_num
      · simp [h1, h2, h3, h5, h6, h7, energy_of]

/-! ## Claims about the probe -/

/-- C1: a sample `i < num_samples` whose image coordinate `(x, y)` lies outside
`[0,194) x [0,268)` gets `energy_out[i] = 0`, for every scan line and every
snapshot, present or absent. -/
theorem probe_out_of_bounds_zero (a : xp11_atmo_t) (xo yo : Nat → Int) (sl : scan_line_t)
    (i : Nat) (x y : Int) (hi : i < sl.num_samples)
    (hx : x = xo i + EFIS_LAT_PIX) (hy : y = yo i + EFIS_LON_AFT)
    (hout : x < 0 ∨ x ≥ 194 ∨ y < 0 ∨ y ≥ 268) :
    (atmo_xp11_probe a xo yo sl).energy_out i = 0 := by
  unfold atmo_xp11_probe
  rw [probe_loop_energy, if_pos hi, ← hx, ← hy]
  unfold sample_energy
  rw [if_pos]
  simpa [out_of_bounds, EFIS_WIDTH, EFIS_HEIGHT, EFIS_LON_FWD, EFIS_LON_AFT] using hout

/-- Witness of C1: an all-white opaque snapshot, first sample at `(194, 134)`. -/
theorem probe_out_of_bounds_zero_witness :
    (atmo_xp11_probe (uniform_atmo 0xffffffff) (fun _ => 97) (fun _ => 0)
      (blank_line 1)).energy_out 0 = 0 :=
  probe_out_of_bounds_zero (uniform_atmo 0xffffffff) (fun _ => 97) (fun _ => 0) (blank_line 1)
    0 194 134 (by decide) (by decide) (by decide) (by decide)

/-- C2: an in-bounds sample whose snapshot pixel has an alpha byte below
`0.95 * 255` (at most 242) gets energy 0, whatever its red, green and blue
bytes are. -/
theorem probe_low_alpha_zero (a : xp11_atmo_t) (xo yo : Nat → Int) (sl : scan_line_t)
    (i : Nat) (x y : Int) (pixels : List Nat) (hi : i < sl.num_samples)
    (hx : x = xo i + EFIS_LAT_PIX) (hy : y = yo i + EFIS_LON_AFT)
    (hin : 0 ≤ x ∧ x < 194 ∧ 0 ≤ y ∧ y < 268)
    (hp : a.pixels = some pixels)
    (halpha : ((bits (pixel_at pixels x y) 24 : Nat) : ℚ) < 0.95 * 255) :
    (atmo_xp11_probe a xo yo sl).energy_out i = 0 := by
  have hnot : ¬ out_of_bounds x y := by
    simp only [out_of_bounds, EFIS_WIDTH, EFIS_HEIGHT, EFIS_LON_FWD, EFIS_LON_AFT]
    omega
  have hal : ((bits (pixel_at pixels x y) 24 : Nat) : Int) ≤ 242 := by
    have h := (int_lt_iff ((bits (pixel_at pixels x y) 24 : Nat) : Int) 242 (0.95 * 255)
      (by norm_num) (by norm_num)).mp (by exact_mod_cast halpha)
    exact h
  unfold atmo_xp11_probe
  rw [probe_loop_energy, if_pos hi, ← hx, ← hy, sample_energy_in a pixels x y hp hnot,
    classify_int]
  simp only [hal, if_true, ite_self, energy_of]
  norm_num

/-- Witness of C2: every pixel is white with alpha byte 242, sample at
`(97, 134)`. -/
theorem probe_low_alpha_zero_witness :
    (atmo_xp11_probe (uniform_atmo 0xf2ffffff) (fun _ => 0) (fun _ => 0)
      (blank_line 1)).energy_out 0 = 0 :=
  probe_low_alpha_zero (uniform_atmo 0xf2ffffff) (fun _ => 0) (fun _ => 0) (blank_line 1)
    0 97 134 (List.replicate EFIS_PIXELS 0xf2ffffff) (by decide) (by decide) (by decide)
    (by decide) rfl
    (by rw [pixel_at_uniform 0xf2ffffff 97 134 (by decide)]; norm_num [bits])

/-- C3: an in-bounds sample whose snapshot pixel is fully opaque with
blue above `0.1 * 255`, green above `0.7 * 255`, green at most `0.9 * 255` and
red at most `0.9 * 255` gets energy exactly 50. -/
theorem probe_moderate_precip_fifty (a : xp11_atmo_t) (xo yo : Nat → Int) (sl : scan_line_t)
    (i : Nat) (x y : Int) (pixels : List Nat) (w : Nat) (hi : i < sl.num_samples)
    (hx : x = xo i + EFIS_LAT_PIX) (hy : y = yo i + EFIS_LON_AFT)
    (hin : 0 ≤ x ∧ x < 194 ∧ 0 ≤ y ∧ y < 268)
    (hp : a.pixels = some pixels) (hw : w = pixel_at pixels x y)
    (halpha : bits w 24 = 255)
    (hblue : ((bits w 16 : Nat) : ℚ) > 0.1 * 255)
    (hgreen_lo : ((bits w 8 : Nat) : ℚ) > 0.7 * 255)
    (hgreen_hi : ((bits w 8 : Nat) : ℚ) ≤ 0.9 * 255)
    (hred : ((bits w 0 : Nat) : ℚ) ≤ 0.9 * 255) :
    (atmo_xp11_probe a xo yo sl).energy_out i = 50 := by
  have hnot : ¬ out_of_bounds x y := by
    simp only [out_of_bounds, EFIS_WIDTH, EFIS_HEIGHT, EFIS_LON_FWD, EFIS_LON_AFT]
    omega
  have hb : (26 : Int) ≤ ((bits w 16 : Nat) : Int) :=
    (int_gt_iff _ 26 (0.1 * 255) (by norm_num) (by norm_num)).mp (by exact_mod_cast hblue)
  have hg1 : (179 : Int) ≤ ((bits w 8 : Nat) : Int) :=
    (int_gt_iff _ 179 (0.7 * 255) (by norm_num) (by norm_num)).mp (by exact_mod_cast hgreen_lo)
  have hg2 : ¬ (230 : Int) ≤ ((bits w 8 : Nat) : Int) := by
    intro h
    have := (int_gt_iff ((bits w 8 : Nat) : Int) 230 (0.9 * 255) (by norm_num)
      (by norm_num)).mpr h
    have h2 : (((bits w 8 : Nat) : Int) : ℚ) ≤ 0.9 * 255 := by exact_mod_cast hgreen_hi
    linarith
  have hr : ¬ (230 : Int) ≤ ((bits w 0 : Nat) : Int) := by
    intro h
    have := (int_gt_iff ((bits w 0 : Nat) : Int) 230 (0.9 * 255) (by norm_num)
      (by norm_num)).mpr h
    have h2 : (((bits w 0 : Nat) : Int) : ℚ) ≤ 0.9 * 255 := by exact_mod_cast hred
    linarith
  have ha : ¬ ((bits w 24 : Nat) : Int) ≤ 242 := by
    rw [halpha]; decide
  unfold atmo_xp11_probe
  rw [probe_loop_energy, if_pos hi, ← hx, ← hy, sample_energy_in a pixels x y hp hnot,
    classify_int, ← hw]
  simp only [hb, hg1, hg2, hr, ha, if_true, if_false, false_and, energy_of]
  norm_num

/-- Witness of C3: every pixel is `0xff20b310` (alpha 255, blue 32, green 179,
red 16), sample at `(97, 134)`. -/
theorem probe_moderate_precip_fifty_witness :
    (atmo_xp11_probe (uniform_atmo 0xff20b310) (fun _ => 0) (fun _ => 0)
      (blank_line 1)).energy_out 0 = 50 :=
  probe_moderate_precip_fifty (uniform_atmo 0xff20b310) (fun _ => 0) (fun _ => 0)
    (blank_line 1) 0 97 134 (List.replicate EFIS_PIXELS 0xff20b310) 0xff20b310
    (by decide) (by decide) (by decide) (by decide) rfl
    (pixel_at_uniform 0xff20b310 97 134 (by decide)).symm
    (by decide) (by norm_num [bits]) (by norm_num [bits]) (by norm_num [bits])
    (by norm_num [bits])

/-- C4: for an in-bounds sample the energy written equals the decision tree of
the specification with integer thresholds, applied to the pixel unpacked as
red = bits 0-7, green = bits 8-15, blue = bits 16-23, alpha = bits 24-31. -/
theorem probe_energy_eq_spec (a : xp11_atmo_t) (xo yo : Nat → Int) (sl : scan_line_t)
    (i : Nat) (x y : Int) (pixels : List Nat) (w : Nat) (hi : i < sl.num_samples)
    (hx : x = xo i + EFIS_LAT_PIX) (hy : y = yo i + EFIS_LON_AFT)
    (hin : 0 ≤ x ∧ x < 194 ∧ 0 ≤ y ∧ y < 268)
    (hp : a.pixels = some pixels) (hw : w = pixel_at pixels x y) :
    (atmo_xp11_probe a xo yo sl).energy_out i =
      spec_energy (bits w 0) (bits w 8) (bits w 16) (bits w 24) := by
  have hnot : ¬ out_of_bounds x y := by
    simp only [out_of_bounds, EFIS_WIDTH, EFIS_HEIGHT, EFIS_LON_FWD, EFIS_LON_AFT]
    omega
  unfold atmo_xp11_probe
  rw [probe_loop_energy, if_pos hi, ← hx, ← hy, sample_energy_in a pixels x y hp hnot, ← hw]
  exact energy_classify_eq_spec _ _ _ _

/-- Witness of C4: every pixel is `0xff10d010` (alpha 255, blue 16, green 208,
red 16), sample at `(97, 134)`: energy 25. -/
theorem probe_energy_eq_spec_witness :
    (atmo_xp11_probe (uniform_atmo 0xff10d010) (fun _ => 0) (fun _ => 0)
      (blank_line 1)).energy_out 0 =
      spec_energy (bits 0xff10d010 0) (bits 0xff10d010 8) (bits 0xff10d010 16)
        (bits 0xff10d010 24) :=
  probe_energy_eq_spec (uniform_atmo 0xff10d010) (fun _ => 0) (fun _ => 0)
    (blank_line 1) 0 97 134 (List.replicate EFIS_PIXELS 0xff10d010) 0xff10d010
    (by decide) (by decide) (by decide) (by decide) rfl
    (pixel_at_uniform 0xff10d010 97 134 (by decide)).symm

/-- C5: when no snapshot exists, every sample `i < num_samples` of every scan
line gets `energy_out[i] = 0`, in bounds or not. -/
theorem probe_no_snapshot_zero (a : xp11_atmo_t) (xo yo : Nat → Int) (sl : scan_line_t)
    (i : Nat) (hnone : a.pixels = none) (hi : i < sl.num_samples) :
    (atmo_xp11_probe a xo yo sl).energy_out i = 0 := by
  unfold atmo_xp11_probe
  rw [probe_loop_energy, if_pos hi]
  unfold sample_energy
  split_ifs
  · rfl
  · simp only [read_rgba, hnone, classify_int, energy_of]
    norm_num

/-- Witness of C5: the state right after `atmo_xp11_set_efis_pos` on a world
that held an all-white snapshot; sample 1 of 2 is in bounds at `(97, 134)`. -/
theorem probe_no_snapshot_zero_witness :
    (atmo_xp11_probe (atmo_xp11_set_efis_pos 10 20 194 268 (uniform_world 0xffffffff)).xp11_atmo
      (fun _ => 0) (fun _ => 0) (blank_line 2)).energy_out 1 = 0 :=
  probe_no_snapshot_zero
    (atmo_xp11_set_efis_pos 10 20 194 268 (uniform_world 0xffffffff)).xp11_atmo
    (fun _ => 0) (fun _ => 0) (blank_line 2) 1 rfl (by decide)

/-- C6: after `atmo_xp11_probe`, every index `i < num_samples` has
`doppler_out[i] = 0` and `energy_out[i]` in `{0, 25, 50, 75, 100}`, for every
state, every scan line and every previous content of the two arrays. -/
theorem probe_fills_outputs (a : xp11_atmo_t) (xo yo : Nat → Int) (sl : scan_line_t)
    (i : Nat) (hi : i < sl.num_samples) :
    (atmo_xp11_probe a xo yo sl).doppler_out i = 0 ∧
    ((atmo_xp11_probe a xo yo sl).energy_out i = 0 ∨
     (atmo_xp11_probe a xo yo sl).energy_out i = 25 ∨
     (atmo_xp11_probe a xo yo sl).energy_out i = 50 ∨
     (atmo_xp11_probe a xo yo sl).energy_out i = 75 ∨
     (atmo_xp11_probe a xo yo sl).energy_out i = 100) := by
  unfold atmo_xp11_probe
  rw [probe_loop_energy, probe_loop_doppler, if_pos hi, if_pos hi]
  exact ⟨rfl, sample_energy_range a _ _⟩

/-- Witness of C6: a line of three samples whose arrays held 7 everywhere,
probed against an all-white opaque snapshot; the last sample is looked at. -/
theorem probe_fills_outputs_witness :
    (atmo_xp11_probe (uniform_atmo 0xffffffff) (fun i => 40 * i) (fun i => 40 * i)
      (blank_line 3)).doppler_out 2 = 0 ∧
    ((atmo_xp11_probe (uniform_atmo 0xffffffff) (fun i => 40 * i) (fun i => 40 * i)
      (blank_line 3)).energy_out 2 = 0 ∨
     (atmo_xp11_probe (uniform_atmo 0xffffffff) (fun i => 40 * i) (fun i => 40 * i)
      (blank_line 3)).energy_out 2 = 25 ∨
     (atmo_xp11_probe (uniform_atmo 0xffffffff) (fun i => 40 * i) (fun i => 40 * i)
      (blank_line 3)).energy_out 2 = 50 ∨
     (atmo_xp11_probe (uniform_atmo 0xffffffff) (fun i => 40 * i) (fun i => 40 * i)
      (blank_line 3)).energy_out 2 = 75 ∨
     (atmo_xp11_probe (uniform_atmo 0xffffffff) (fun i => 40 * i) (fun i => 40 * i)
      (blank_line 3)).energy_out 2 = 100) :=
  probe_fills_outputs (uniform_atmo 0xffffffff) (fun i => 40 * i) (fun i => 40 * i)
    (blank_line 3) 2 (by decide)

/-! ## Claims about the range tiers -/

/-- C7: `efis_map_range_select` returns a tier index in `0..6`; when the Range
is at most some threshold it returns the least tier `i` with `range <= T_i`;
when the Range exceeds every threshold it returns the last tier 6; and a Range
equal to the threshold `T_i` selects tier `i`, for each of the 7 tiers. -/
theorem range_select_least_tier (a : xp11_atmo_t) :
    efis_map_range_select a ≤ 6 ∧
    ((∃ i, i < 7 ∧ a.range ≤ tier_threshold i) →
      a.range ≤ tier_threshold (efis_map_range_select a) ∧
      ∀ j, j < efis_map_range_select a → tier_threshold j < a.range) ∧
    ((∀ i, i < 7 → tier_threshold i < a.range) → efis_map_range_select a = 6) ∧
    (∀ i, i < 7 → a.range = tier_threshold i → efis_map_range_select a = i) := by
  have t0 : tier_threshold 0 = 18520 := by norm_num [tier_threshold, NM2MET]
  have t1 : tier_threshold 1 = 37040 := by norm_num [tier_threshold, NM2MET]
  have t2 : tier_threshold 2 = 74080 := by norm_num [tier_threshold, NM2MET]
  have t3 : tier_threshold 3 = 148160 := by norm_num [tier_threshold, NM2MET]
  have t4 : tier_threshold 4 = 296320 := by norm_num [tier_threshold, NM2MET]
  have t5 : tier_threshold 5 = 592640 := by norm_num [tier_threshold, NM2MET]
  have t6 : tier_threshold 6 = 1185280 := by norm_num [tier_threshold, NM2MET]
  have hsel : efis_map_range_select a =
      if a.range ≤ 18520 then 0 else if a.range ≤ 37040 then 1
      else if a.range ≤ 74080 then 2 else if a.range ≤ 148160 then 3
      else if a.range ≤ 296320 then 4 else if a.range ≤ 592640 then 5
      else 6 := by
    simp only [efis_map_range_select, efis_map_ranges, range_select_loop, NM2MET,
      EFIS_MAP_RANGE_640NM]
    norm_num
  rw [hsel]
  refine ⟨?_, ?_, ?_, ?_⟩
  · split_ifs <;> omega
  · rintro ⟨i, hi, hle⟩
    split_ifs with h0 h1 h2 h3 h4 h5
    all_goals refine ⟨?_, ?_⟩
    all_goals first
      | (simp only [t0, t1, t2, t3, t4, t5, t6]; linarith)
      | (intro j hj; interval_cases j <;> simp only [t0, t1, t2, t3, t4, t5, t6] <;> linarith)
      | (interval_cases i <;> simp only [t0, t1, t2, t3, t4, t5, t6] at hle ⊢ <;> linarith)
  · intro hall
    have h0 := hall 0 (by omega)
    have h1 := hall 1 (by omega)
    have h2 := hall 2 (by omega)
    have h3 := hall 3 (by omega)
    have h4 := hall 4 (by omega)
    have h5 := hall 5 (by omega)
    rw [t0] at h0; rw [t1] at h1; rw [t2] at h2; rw [t3] at h3; rw [t4] at h4; rw [t5] at h5
    rw [if_neg (not_le.mpr h0), if_neg (not_le.mpr h1), if_neg (not_le.mpr h2),
      if_neg (not_le.mpr h3), if_neg (not_le.mpr h4), if_neg (not_le.mpr h5)]
  · intro i hi heq
    interval_cases i <;> simp only [t0, t1, t2, t3, t4, t5, t6] at heq <;> rw [heq] <;> norm_num

/-! ## Claims about the region setter and the transfer pipeline -/

/-- C8: `atmo_xp11_set_efis_pos x y w h` leaves the Region equal to
`(x, y, w, h)` and the Snapshot empty; a second call with the same arguments
gives the same state as one call; Range, fence, last-update time, the transfer
buffer (handle and contents), the display flags and `inited` are untouched. -/
theorem set_efis_pos_idempotent (s : world_t) (x y w h : Nat) :
    (atmo_xp11_set_efis_pos x y w h s).xp11_atmo.efis_x = x ∧
    (atmo_xp11_set_efis_pos x y w h s).xp11_atmo.efis_y = y ∧
    (atmo_xp11_set_efis_pos x y w h s).xp11_atmo.efis_w = w ∧
    (atmo_xp11_set_efis_pos x y w h s).xp11_atmo.efis_h = h ∧
    (atmo_xp11_set_efis_pos x y w h s).xp11_atmo.pixels = none ∧
    atmo_xp11_set_efis_pos x y w h (atmo_xp11_set_efis_pos x y w h s) =
      atmo_xp11_set_efis_pos x y w h s ∧
    (atmo_xp11_set_efis_pos x y w h s).xp11_atmo.range = s.xp11_atmo.range ∧
    (atmo_xp11_set_efis_pos x y w h s).xp11_atmo.xfer_sync = s.xp11_atmo.xfer_sync ∧
    (atmo_xp11_set_efis_pos x y w h s).xp11_atmo.last_update = s.xp11_atmo.last_update ∧
    (atmo_xp11_set_efis_pos x y w h s).xp11_atmo.pbo = s.xp11_atmo.pbo ∧
    (atmo_xp11_set_efis_pos x y w h s).pbo_data = s.pbo_data ∧
    (atmo_xp11_set_efis_pos x y w h s).EFIS = s.EFIS ∧
    (atmo_xp11_set_efis_pos x y w h s).inited = s.inited :=
  ⟨rfl, rfl, rfl, rfl, rfl, rfl, rfl, rfl, rfl, rfl, rfl, rfl, rfl⟩

/-! ## Lemmas: the draw callback -/

theorem alloc_pixels_isSome (a : xp11_atmo_t) : (alloc_pixels a).1.pixels ≠ none := by
  unfold alloc_pixels
  cases h : a.pixels <;> simp [h]

theorem alloc_pixels_of_some (a : xp11_atmo_t) (l : List Nat) (h : a.pixels = some l) :
    alloc_pixels a = (a, []) := by
  unfold alloc_pixels
  simp [h]

theorem alloc_pixels_of_none (a : xp11_atmo_t) (h : a.pixels = none) :
    alloc_pixels a = ({ a with pixels := some calloc_pixels }, [call_t.calloc]) := by
  unfold alloc_pixels
  simp [h]

theorem alloc_pixels_rest (a : xp11_atmo_t) :
    (alloc_pixels a).1.xfer_sync = a.xfer_sync ∧ (alloc_pixels a).1.last_update = a.last_update ∧
    (alloc_pixels a).1.range = a.range ∧ (alloc_pixels a).1.pbo = a.pbo ∧
    (alloc_pixels a).1.efis_x = a.efis_x ∧ (alloc_pixels a).1.efis_y = a.efis_y ∧
    (alloc_pixels a).1.efis_w = a.efis_w ∧ (alloc_pixels a).1.efis_h = a.efis_h := by
  unfold alloc_pixels
  cases h : a.pixels <;> simp

theorem alloc_pixels_calls (a : xp11_atmo_t) :
    (alloc_pixels a).2.any is_glReadPixels = false := by
  unfold alloc_pixels
  cases h : a.pixels <;> simp [is_glReadPixels]

theorem alloc_pbo_rest (h : host_t) (a : xp11_atmo_t) :
    (alloc_pbo h a).1.pixels = a.pixels ∧ (alloc_pbo h a).1.xfer_sync = a.xfer_sync ∧
    (alloc_pbo h a).1.last_update = a.last_update ∧ (alloc_pbo h a).1.range = a.range ∧
    (alloc_pbo h a).1.efis_x = a.efis_x ∧ (alloc_pbo h a).1.efis_y = a.efis_y ∧
    (alloc_pbo h a).1.efis_w = a.efis_w ∧ (alloc_pbo h a).1.efis_h = a.efis_h := by
  unfold alloc_pbo
  split_ifs <;> simp

theorem alloc_pbo_calls (h : host_t) (a : xp11_atmo_t) :
    (alloc_pbo h a).2.any is_glReadPixels = false := by
  unfold alloc_pbo
  split_ifs <;> simp [is_glReadPixels]

theorem any_ite_dr_seti (c : Prop) [Decidable c] (dr : efis_dr_t) (v : Int) :
    (if c then [call_t.dr_seti dr v] else []).any is_glReadPixels = false := by
  split_ifs <;> simp [is_glReadPixels]

theorem update_efis_calls (a : xp11_atmo_t) (d : efis_drs_t) :
    (update_efis a d).2.any is_glReadPixels = false := by
  unfold update_efis
  simp only [List.any_append, any_ite_dr_seti, Bool.or_false]

/-- What the transfer step does to a state with an outstanding fence when the
wait times out: nothing but the poll. -/
theorem transfer_timeout (h : host_t) (a : xp11_atmo_t) (d : Nat → Nat)
    (hf : a.xfer_sync ≠ 0) (hw : h.wait = wait_t.GL_TIMEOUT_EXPIRED) :
    transfer h a d = (a, d, [call_t.glClientWaitSync a.xfer_sync]) := by
  unfold transfer
  simp [hf, hw]

/-- The transfer step calls `glReadPixels` exactly in its issue branch. -/
theorem transfer_issues_iff (h : host_t) (a : xp11_atmo_t) (d : Nat → Nat) :
    (transfer h a d).2.2.any is_glReadPixels = true ↔
      a.xfer_sync = 0 ∧ (a.last_update + UPD_INTVAL) % 2 ^ 64 ≤ h.now := by
  unfold transfer
  split_ifs <;> simp_all [is_glReadPixels]

theorem transfer_issue (h : host_t) (a : xp11_atmo_t) (d : Nat → Nat)
    (hf : a.xfer_sync = 0) (ht : (a.last_update + UPD_INTVAL) % 2 ^ 64 ≤ h.now) :
    transfer h a d =
      ({ a with xfer_sync := h.fence, last_update := h.now }, h.framebuffer a.efis_x a.efis_y,
       [call_t.glReadPixels a.efis_x a.efis_y, call_t.glFenceSync]) := by
  unfold transfer
  rw [if_neg (by simp [hf]), if_pos ht]

/-- A tick with the wrong render type, or without snapshot and with an empty
region, returns at once. -/
theorem update_cb_skip (h : host_t) (w : world_t)
    (hskip : h.render_type ≠ XPLANE_RENDER_GAUGES_3D_LIT ∨
      (w.xp11_atmo.pixels = none ∧ (w.xp11_atmo.efis_w = 0 ∨ w.xp11_atmo.efis_h = 0))) :
    update_cb h w = { world := w, calls := [], status := 1 } := by
  unfold update_cb
  rcases hskip with h1 | h2
  · rw [if_pos h1]
  · split_ifs <;> rfl

/-- A tick that passes both early returns, unfolded. -/
theorem update_cb_run (h : host_t) (w : world_t)
    (h1 : h.render_type = XPLANE_RENDER_GAUGES_3D_LIT)
    (h2 : ¬ (w.xp11_atmo.pixels = none ∧ (w.xp11_atmo.efis_w = 0 ∨ w.xp11_atmo.efis_h = 0))) :
    update_cb h w =
      { world :=
          { w with
            xp11_atmo := (transfer h (alloc_pbo h (alloc_pixels w.xp11_atmo).1).1 w.pbo_data).1
            EFIS := (update_efis
              (transfer h (alloc_pbo h (alloc_pixels w.xp11_atmo).1).1 w.pbo_data).1 w.EFIS).1
            pbo_data :=
              (transfer h (alloc_pbo h (alloc_pixels w.xp11_atmo).1).1 w.pbo_data).2.1 }
        calls := (alloc_pixels w.xp11_atmo).2 ++ (alloc_pbo h (alloc_pixels w.xp11_atmo).1).2 ++
          (transfer h (alloc_pbo h (alloc_pixels w.xp11_atmo).1).1 w.pbo_data).2.2 ++
          (update_efis
            (transfer h (alloc_pbo h (alloc_pixels w.xp11_atmo).1).1 w.pbo_data).1 w.EFIS).2
        status := 1 } := by
  unfold update_cb
  rw [if_neg (by simpa using h1), if_neg h2]

/-- A tick that finds a snapshot and an outstanding fence and whose wait times
out leaves snapshot, fence and last-issue time as they are. -/
theorem update_cb_timeout_keeps (h : host_t) (w : world_t)
    (hs : w.xp11_atmo.pixels ≠ none) (hf : w.xp11_atmo.xfer_sync ≠ 0)
    (hw : h.wait = wait_t.GL_TIMEOUT_EXPIRED) :
    (update_cb h w).world.xp11_atmo.pixels = w.xp11_atmo.pixels ∧
    (update_cb h w).world.xp11_atmo.xfer_sync = w.xp11_atmo.xfer_sync ∧
    (update_cb h w).world.xp11_atmo.last_update = w.xp11_atmo.last_update := by
  by_cases h1 : h.render_type = XPLANE_RENDER_GAUGES_3D_LIT
  · have h2 : ¬ (w.xp11_atmo.pixels = none ∧
        (w.xp11_atmo.efis_w = 0 ∨ w.xp11_atmo.efis_h = 0)) := fun hc => hs hc.1
    obtain ⟨l, hl⟩ := Option.ne_none_iff_exists'.mp hs
    have hf2 : (alloc_pbo h w.xp11_atmo).1.xfer_sync ≠ 0 := by
      rw [(alloc_pbo_rest h w.xp11_atmo).2.1]; exact hf
    rw [update_cb_run h w h1 h2, alloc_pixels_of_some _ l hl]
    simp only [transfer_timeout h _ _ hf2 hw]
    obtain ⟨e1, e2, e3, -⟩ := alloc_pbo_rest h w.xp11_atmo
    exact ⟨e1, e2, e3⟩
  · rw [update_cb_skip h w (Or.inl h1)]
    exact ⟨rfl, rfl, rfl⟩

/-- The state right after a tick that issued a capture: a snapshot exists, the
fence is the one `glFenceSync` returned, the issue time is the tick's time. -/
theorem update_cb_after_issue (h : host_t) (w : world_t)
    (hi : issues_capture (update_cb h w) = true) :
    (update_cb h w).world.xp11_atmo.pixels ≠ none ∧
    (update_cb h w).world.xp11_atmo.xfer_sync = h.fence ∧
    (update_cb h w).world.xp11_atmo.last_update = h.now := by
  by_cases h1 : h.render_type = XPLANE_RENDER_GAUGES_3D_LIT
  · by_cases h2 : (w.xp11_atmo.pixels = none ∧
        (w.xp11_atmo.efis_w = 0 ∨ w.xp11_atmo.efis_h = 0))
    · rw [update_cb_skip h w (Or.inr h2)] at hi
      simp [issues_capture] at hi
    · rw [update_cb_run h w h1 h2] at hi ⊢
      simp only [issues_capture, List.any_append, alloc_pixels_calls, alloc_pbo_calls,
        update_efis_calls, Bool.or_false, Bool.false_or] at hi
      obtain ⟨hf, ht⟩ := (transfer_issues_iff _ _ _).mp hi
      rw [transfer_issue _ _ _ hf ht]
      refine ⟨?_, rfl, rfl⟩
      show (alloc_pbo h (alloc_pixels w.xp11_atmo).1).1.pixels ≠ none
      rw [(alloc_pbo_rest h _).1]
      exact alloc_pixels_isSome _
  · rw [update_cb_skip h w (Or.inl h1)] at hi
    simp [issues_capture] at hi

theorem run_ticks_timeout_keeps (hs : List host_t) (w : world_t)
    (hsnap : w.xp11_atmo.pixels ≠ none) (hf : w.xp11_atmo.xfer_sync ≠ 0)
    (hpoll : ∀ h ∈ hs, h.wait = wait_t.GL_TIMEOUT_EXPIRED) :
    (run_ticks hs w).xp11_atmo.pixels = w.xp11_atmo.pixels ∧
    (run_ticks hs w).xp11_atmo.xfer_sync = w.xp11_atmo.xfer_sync ∧
    (run_ticks hs w).xp11_atmo.last_update = w.xp11_atmo.last_update := by
  induction hs generalizing w with
  | nil => exact ⟨rfl, rfl, rfl⟩
  | cons h hs ih =>
    obtain ⟨e1, e2, e3⟩ :=
      update_cb_timeout_keeps h w hsnap hf (hpoll h (List.mem_cons_self h hs))
    have ih2 := ih (update_cb h w).world (by rw [e1]; exact hsnap) (by rw [e2]; exact hf)
      (fun k hk => hpoll k (List.mem_cons_of_mem h hk))
    simp only [run_ticks, List.foldl_cons] at ih2 ⊢
    rw [ih2.1, ih2.2.1, ih2.2.2, e1, e2, e3]
    exact ⟨rfl, rfl, rfl⟩

/-- C9: from the state right after a tick that issued a capture and recorded
the fence `glFenceSync` returned (a sync object, not 0), any number of further
ticks whose fence poll reports `GL_TIMEOUT_EXPIRED` leaves the Snapshot
unchanged, keeps the same fence outstanding and leaves the last-issue time
unchanged. -/
theorem pending_polls_keep_snapshot (w : world_t) (h0 : host_t) (hs : List host_t)
    (hissue : issues_capture (update_cb h0 w) = true) (hfence : h0.fence ≠ 0)
    (hpoll : ∀ h ∈ hs, h.wait = wait_t.GL_TIMEOUT_EXPIRED) :
    (run_ticks hs (update_cb h0 w).world).xp11_atmo.pixels =
      (update_cb h0 w).world.xp11_atmo.pixels ∧
    (run_ticks hs (update_cb h0 w).world).xp11_atmo.xfer_sync = h0.fence ∧
    (update_cb h0 w).world.xp11_atmo.xfer_sync = h0.fence ∧
    (run_ticks hs (update_cb h0 w).world).xp11_atmo.last_update =
      (update_cb h0 w).world.xp11_atmo.last_update := by
  obtain ⟨a1, a2, a3⟩ := update_cb_after_issue h0 w hissue
  obtain ⟨e1, e2, e3⟩ := run_ticks_timeout_keeps hs (update_cb h0 w).world a1
    (by rw [a2]; exact hfence) hpoll
  exact ⟨e1, by rw [e2, a2], a2, e3⟩

/-- Witness of C9: a capture issued at time 600000 from an idle world whose
snapshot is all `0xff20b310`, followed by two polls that time out. -/
theorem pending_polls_keep_snapshot_witness :
    (run_ticks [lit_tick 600010 wait_t.GL_TIMEOUT_EXPIRED true,
        lit_tick 1200000 wait_t.GL_TIMEOUT_EXPIRED true]
      (update_cb (lit_tick 600000 wait_t.GL_TIMEOUT_EXPIRED true)
        (uniform_world 0xff20b310)).world).xp11_atmo.pixels =
      (update_cb (lit_tick 600000 wait_t.GL_TIMEOUT_EXPIRED true)
        (uniform_world 0xff20b310)).world.xp11_atmo.pixels ∧
    (run_ticks [lit_tick 600010 wait_t.GL_TIMEOUT_EXPIRED true,
        lit_tick 1200000 wait_t.GL_TIMEOUT_EXPIRED true]
      (update_cb (lit_tick 600000 wait_t.GL_TIMEOUT_EXPIRED true)
        (uniform_world 0xff20b310)).world).xp11_atmo.xfer_sync = 9 ∧
    (update_cb (lit_tick 600000 wait_t.GL_TIMEOUT_EXPIRED true)
        (uniform_world 0xff20b310)).world.xp11_atmo.xfer_sync = 9 ∧
    (run_ticks [lit_tick 600010 wait_t.GL_TIMEOUT_EXPIRED true,
        lit_tick 1200000 wait_t.GL_TIMEOUT_EXPIRED true]
      (update_cb (lit_tick 600000 wait_t.GL_TIMEOUT_EXPIRED true)
        (uniform_world 0xff20b310)).world).xp11_atmo.last_update =
      (update_cb (lit_tick 600000 wait_t.GL_TIMEOUT_EXPIRED true)
        (uniform_world 0xff20b310)).world.xp11_atmo.last_update :=
  pending_polls_keep_snapshot (uniform_world 0xff20b310)
    (lit_tick 600000 wait_t.GL_TIMEOUT_EXPIRED true)
    [lit_tick 600010 wait_t.GL_TIMEOUT_EXPIRED true,
      lit_tick 1200000 wait_t.GL_TIMEOUT_EXPIRED true]
    (by decide) (by decide) (by decide)

theorem map_range_getD (f : Nat → Nat) (n i : Nat) (h : i < n) :
    ((List.range n).map f).getD i 0 = f i := by
  rw [List.getD_eq_getElem?_getD, List.getElem?_map, List.getElem?_range h]
  rfl

theorem memcpy_full (dst : List Nat) (src : Nat → Nat) (n : Nat) (h : dst.length = n) :
    memcpy dst src n = (List.range n).map src := by
  unfold memcpy
  rw [List.drop_of_length_le (by omega), List.append_nil]

theorem transfer_signalled (h : host_t) (a : xp11_atmo_t) (d : Nat → Nat)
    (hf : a.xfer_sync ≠ 0) (hw : h.wait ≠ wait_t.GL_TIMEOUT_EXPIRED) :
    (transfer h a d).1.pixels =
      (if h.map_ok then a.pixels.map (fun dst => memcpy dst d EFIS_PIXELS) else a.pixels) ∧
    (transfer h a d).1.xfer_sync = 0 ∧
    (transfer h a d).1.last_update = a.last_update ∧
    (transfer h a d).2.2.any is_glReadPixels = false := by
  unfold transfer
  rw [if_pos hf, if_pos hw]
  split_ifs <;> simp [is_glReadPixels]

/-- Counterexample of C10: a fence is outstanding, the render phase is valid
and the poll reports the fence signalled, but `glMapBuffer` returns NULL; the
Snapshot keeps its zeros while the transfer buffer holds `0xff20b310`
everywhere. -/
theorem signalled_poll_copy_counterexample :
    (pending_world 0 9).xp11_atmo.xfer_sync ≠ 0 ∧
    (lit_tick 100 wait_t.GL_ALREADY_SIGNALED false).render_type = XPLANE_RENDER_GAUGES_3D_LIT ∧
    (lit_tick 100 wait_t.GL_ALREADY_SIGNALED false).wait = wait_t.GL_ALREADY_SIGNALED ∧
    (update_cb (lit_tick 100 wait_t.GL_ALREADY_SIGNALED false)
      (pending_world 0 9)).world.xp11_atmo.pixels ≠
      some ((List.range EFIS_PIXELS).map (pending_world 0 9).pbo_data) := by
  refine ⟨by decide, by decide, by decide, ?_⟩
  have hp : (update_cb (lit_tick 100 wait_t.GL_ALREADY_SIGNALED false)
      (pending_world 0 9)).world.xp11_atmo.pixels = some (List.replicate EFIS_PIXELS 0) := rfl
  rw [hp]
  intro heq
  have h1 := congrArg (fun l => l.getD 0 0) (Option.some.inj heq)
  simp only at h1
  rw [getD_replicate_lt _ _ _ _ (by decide), map_range_getD _ _ _ (by decide)] at h1
  exact absurd h1 (by decide)

/-- C10 (amended): from a state with a fence outstanding, in the valid render
phase, in which a snapshot exists (a buffer of 194 x 268 pixels) or the region
size is non-zero, a tick whose fence poll does not time out ends with no fence
outstanding, issues no capture and leaves the last-issue time unchanged; when
`glMapBuffer` succeeds the Snapshot equals the full 194 x 268 contents of the
transfer buffer, and when it returns NULL the Snapshot is the one the tick
found (a freshly zeroed one if there was none). -/
theorem signalled_poll_copies (h : host_t) (w : world_t)
    (hphase : h.render_type = XPLANE_RENDER_GAUGES_3D_LIT)
    (hfence : w.xp11_atmo.xfer_sync ≠ 0)
    (hready : w.xp11_atmo.pixels ≠ none ∨ (w.xp11_atmo.efis_w ≠ 0 ∧ w.xp11_atmo.efis_h ≠ 0))
    (hsize : ∀ l, w.xp11_atmo.pixels = some l → l.length = EFIS_PIXELS)
    (hwait : h.wait ≠ wait_t.GL_TIMEOUT_EXPIRED) :
    (h.map_ok = true → (update_cb h w).world.xp11_atmo.pixels =
      some ((List.range EFIS_PIXELS).map w.pbo_data)) ∧
    (h.map_ok = false → (update_cb h w).world.xp11_atmo.pixels =
      some (w.xp11_atmo.pixels.getD calloc_pixels)) ∧
    (update_cb h w).world.xp11_atmo.xfer_sync = 0 ∧
    issues_capture (update_cb h w) = false ∧
    (update_cb h w).world.xp11_atmo.last_update = w.xp11_atmo.last_update := by
  have h2 : ¬ (w.xp11_atmo.pixels = none ∧
      (w.xp11_atmo.efis_w = 0 ∨ w.xp11_atmo.efis_h = 0)) := by
    rintro ⟨hn, hz⟩
    rcases hready with hr | ⟨hw1, hh1⟩
    · exact hr hn
    · rcases hz with hz | hz
      · exact hw1 hz
      · exact hh1 hz
  obtain ⟨b1, b2, b3, -⟩ := alloc_pbo_rest h (alloc_pixels w.xp11_atmo).1
  obtain ⟨c1, c2, -⟩ := alloc_pixels_rest w.xp11_atmo
  have hf2 : (alloc_pbo h (alloc_pixels w.xp11_atmo).1).1.xfer_sync ≠ 0 := by
    rw [b2, c1]; exact hfence
  obtain ⟨t1, t2, t3, t4⟩ := transfer_signalled h _ w.pbo_data hf2 hwait
  have hpix : ∃ l, (alloc_pixels w.xp11_atmo).1.pixels = some l ∧ l.length = EFIS_PIXELS ∧
      l = w.xp11_atmo.pixels.getD calloc_pixels := by
    cases hp : w.xp11_atmo.pixels with
    | none =>
      rw [alloc_pixels_of_none _ hp]
      exact ⟨calloc_pixels, rfl, List.length_replicate _ _, rfl⟩
    | some l =>
      rw [alloc_pixels_of_some _ l hp]
      exact ⟨l, hp, hsize l hp, rfl⟩
  obtain ⟨l, hl, hlen, hl2⟩ := hpix
  rw [update_cb_run h w hphase h2]
  refine ⟨?_, ?_, t2, ?_, ?_⟩
  · intro hm
    show (transfer h (alloc_pbo h (alloc_pixels w.xp11_atmo).1).1 w.pbo_data).1.pixels = _
    rw [t1, if_pos hm, b1, hl, Option.map_some', memcpy_full l _ _ hlen]
  · intro hm
    show (transfer h (alloc_pbo h (alloc_pixels w.xp11_atmo).1).1 w.pbo_data).1.pixels = _
    rw [t1, if_neg (by simp [hm]), b1, hl, hl2]
  · simp only [issues_capture, List.any_append, alloc_pixels_calls, alloc_pbo_calls,
      update_efis_calls, t4, Bool.or_false]
  · show (transfer h (alloc_pbo h (alloc_pixels w.xp11_atmo).1).1 w.pbo_data).1.last_update = _
    rw [t3, b3, c2]

/-- Witness of C10 (amended): fence 9 outstanding over an all-zero snapshot,
the poll reports `GL_CONDITION_SATISFIED` and the mapping succeeds. -/
theorem signalled_poll_copies_witness :
    (update_cb (lit_tick 100 wait_t.GL_CONDITION_SATISFIED true)
      (pending_world 0 9)).world.xp11_atmo.pixels =
      some ((List.range EFIS_PIXELS).map (pending_world 0 9).pbo_data) ∧
    (update_cb (lit_tick 100 wait_t.GL_CONDITION_SATISFIED true)
      (pending_world 0 9)).world.xp11_atmo.xfer_sync = 0 ∧
    issues_capture (update_cb (lit_tick 100 wait_t.GL_CONDITION_SATISFIED true)
      (pending_world 0 9)) = false ∧
    (update_cb (lit_tick 100 wait_t.GL_CONDITION_SATISFIED true)
      (pending_world 0 9)).world.xp11_atmo.last_update =
      (pending_world 0 9).xp11_atmo.last_update :=
  have key := signalled_poll_copies (lit_tick 100 wait_t.GL_CONDITION_SATISFIED true)
    (pending_world 0 9) (by decide) (by decide) (Or.inr (by decide))
    (fun l hl => by
      have : l = List.replicate EFIS_PIXELS 0 := (Option.some.inj hl).symm
      rw [this]; exact List.length_replicate _ _)
    (by decide)
  ⟨key.1 rfl, key.2.2.1, key.2.2.2.1, key.2.2.2.2⟩

/-! ## Lemmas: runs and reachable states -/

theorem run_ops_cons (o : op_t) (ops : List op_t) (s : world_t) :
    run_ops (o :: ops) s = run_ops ops (apply_op o s) := rfl

theorem run_ops_append (ops1 ops2 : List op_t) (s : world_t) :
    run_ops (ops1 ++ ops2) s = run_ops ops2 (run_ops ops1 s) := by
  unfold run_ops
  rw [List.foldl_append]

theorem run_ops_invariant (P : world_t → Prop) (hstep : ∀ o s, P s → P (apply_op o s))
    (ops : List op_t) (s : world_t) (hs : P s) : P (run_ops ops s) := by
  induction ops generalizing s with
  | nil => exact hs
  | cons o ops ih => exact ih (apply_op o s) (hstep o s hs)

theorem init_atmo (w0 w1 : world_t) (hinit : atmo_xp11_init w0 = some w1) :
    w1.xp11_atmo =
      { pixels := none, range := 0, last_update := 0, efis_x := 0, efis_y := 0,
        efis_w := 0, efis_h := 0, pbo := 0, xfer_sync := 0 } := by
  unfold atmo_xp11_init at hinit
  split_ifs at hinit
  cases hinit
  rfl

theorem reachable_invariant (P : world_t → Prop)
    (hinit : ∀ w0 w1, atmo_xp11_init w0 = some w1 → P w1)
    (hstep : ∀ o s, P s → P (apply_op o s)) (s : world_t) (hs : reachable s) : P s := by
  obtain ⟨w0, w1, ops, h1, h2⟩ := hs
  rw [← h2]
  exact run_ops_invariant P hstep ops w1 (hinit w0 w1 h1)

theorem reachable_init_world : reachable init_world :=
  ⟨boot_world, init_world, [], rfl, rfl⟩

theorem reachable_run (ops : List op_t) : reachable (run_ops ops init_world) :=
  ⟨boot_world, init_world, ops, rfl, rfl⟩

theorem transfer_rest (h : host_t) (a : xp11_atmo_t) (d : Nat → Nat) :
    (transfer h a d).1.range = a.range ∧ (transfer h a d).1.pbo = a.pbo ∧
    (transfer h a d).1.efis_x = a.efis_x ∧ (transfer h a d).1.efis_y = a.efis_y ∧
    (transfer h a d).1.efis_w = a.efis_w ∧ (transfer h a d).1.efis_h = a.efis_h := by
  unfold transfer
  split_ifs <;> simp

theorem transfer_pixels_cases (h : host_t) (a : xp11_atmo_t) (d : Nat → Nat) :
    (transfer h a d).1.pixels = a.pixels ∨
    (transfer h a d).1.pixels = a.pixels.map (fun dst => memcpy dst d EFIS_PIXELS) := by
  unfold transfer
  split_ifs <;> simp

theorem memcpy_length (dst : List Nat) (src : Nat → Nat) (n : Nat) (h : dst.length = n) :
    (memcpy dst src n).length = n := by
  rw [memcpy_full dst src n h, List.length_map, List.length_range]

/-- A tick leaves the region and the Range alone. -/
theorem update_cb_rest (h : host_t) (w : world_t) :
    (update_cb h w).world.xp11_atmo.range = w.xp11_atmo.range ∧
    (update_cb h w).world.xp11_atmo.efis_x = w.xp11_atmo.efis_x ∧
    (update_cb h w).world.xp11_atmo.efis_y = w.xp11_atmo.efis_y ∧
    (update_cb h w).world.xp11_atmo.efis_w = w.xp11_atmo.efis_w ∧
    (update_cb h w).world.xp11_atmo.efis_h = w.xp11_atmo.efis_h ∧
    (update_cb h w).world.inited = w.inited := by
  by_cases h1 : h.render_type = XPLANE_RENDER_GAUGES_3D_LIT
  · by_cases h2 : (w.xp11_atmo.pixels = none ∧
        (w.xp11_atmo.efis_w = 0 ∨ w.xp11_atmo.efis_h = 0))
    · rw [update_cb_skip h w (Or.inr h2)]
      exact ⟨rfl, rfl, rfl, rfl, rfl, rfl⟩
    · rw [update_cb_run h w h1 h2]
      obtain ⟨t1, -, t3, t4, t5, t6⟩ :=
        transfer_rest h (alloc_pbo h (alloc_pixels w.xp11_atmo).1).1 w.pbo_data
      obtain ⟨-, -, -, b1, b3, b4, b5, b6⟩ := alloc_pbo_rest h (alloc_pixels w.xp11_atmo).1
      obtain ⟨-, -, c1, -, c3, c4, c5, c6⟩ := alloc_pixels_rest w.xp11_atmo
      exact ⟨by rw [← c1, ← b1, ← t1], by rw [← c3, ← b3, ← t3], by rw [← c4, ← b4, ← t4],
        by rw [← c5, ← b5, ← t5], by rw [← c6, ← b6, ← t6], rfl⟩
  · rw [update_cb_skip h w (Or.inl h1)]
    exact ⟨rfl, rfl, rfl, rfl, rfl, rfl⟩

/-- The snapshot after a tick: untouched, or (when the tick got past the
early returns) the allocated buffer, as it is or overwritten by the copy. -/
theorem update_cb_pixels_cases (h : host_t) (w : world_t) :
    (update_cb h w).world.xp11_atmo.pixels = w.xp11_atmo.pixels ∨
    (¬ (w.xp11_atmo.pixels = none ∧ (w.xp11_atmo.efis_w = 0 ∨ w.xp11_atmo.efis_h = 0)) ∧
      ((update_cb h w).world.xp11_atmo.pixels = (alloc_pixels w.xp11_atmo).1.pixels ∨
       (update_cb h w).world.xp11_atmo.pixels =
        (alloc_pixels w.xp11_atmo).1.pixels.map
          (fun dst => memcpy dst w.pbo_data EFIS_PIXELS))) := by
  by_cases h1 : h.render_type = XPLANE_RENDER_GAUGES_3D_LIT
  · by_cases h2 : (w.xp11_atmo.pixels = none ∧
        (w.xp11_atmo.efis_w = 0 ∨ w.xp11_atmo.efis_h = 0))
    · rw [update_cb_skip h w (Or.inr h2)]
      exact Or.inl rfl
    · rw [update_cb_run h w h1 h2]
      right
      refine ⟨h2, ?_⟩
      have hb := (alloc_pbo_rest h (alloc_pixels w.xp11_atmo).1).1
      rcases transfer_pixels_cases h (alloc_pbo h (alloc_pixels w.xp11_atmo).1).1 w.pbo_data
        with ht | ht
      · left
        show (transfer h (alloc_pbo h (alloc_pixels w.xp11_atmo).1).1 w.pbo_data).1.pixels = _
        rw [ht, hb]
      · right
        show (transfer h (alloc_pbo h (alloc_pixels w.xp11_atmo).1).1 w.pbo_data).1.pixels = _
        rw [ht, hb]
  · rw [update_cb_skip h w (Or.inl h1)]
    exact Or.inl rfl

theorem alloc_pixels_length (a : xp11_atmo_t)
    (ha : ∀ l, a.pixels = some l → l.length = EFIS_PIXELS) :
    ∀ l, (alloc_pixels a).1.pixels = some l → l.length = EFIS_PIXELS := by
  intro l hl
  cases hp : a.pixels with
  | none =>
    rw [alloc_pixels_of_none a hp] at hl
    cases hl
    exact List.length_replicate _ _
  | some l0 =>
    rw [alloc_pixels_of_some a l0 hp] at hl
    exact ha l hl

/-- Invariant: a present snapshot has `EFIS_WIDTH * EFIS_HEIGHT` pixels. -/
theorem reachable_pixels_length (s : world_t) (hs : reachable s) :
    ∀ l, s.xp11_atmo.pixels = some l → l.length = EFIS_PIXELS := by
  refine reachable_invariant
    (fun s => ∀ l, s.xp11_atmo.pixels = some l → l.length = EFIS_PIXELS) ?_ ?_ s hs
  · intro w0 w1 hinit l hl
    rw [init_atmo w0 w1 hinit] at hl
    cases hl
  · intro o s ih l hl
    cases o with
    | set_range r => exact ih l hl
    | set_efis_pos x y w h => cases hl
    | tick h =>
      have hal := alloc_pixels_length s.xp11_atmo ih
      rcases update_cb_pixels_cases h s with hc | ⟨-, hc | hc⟩
      · exact ih l (by rw [← hc]; exact hl)
      · exact hal l (by rw [← hc]; exact hl)
      · have hl2 : (alloc_pixels s.xp11_atmo).1.pixels.map
            (fun dst => memcpy dst s.pbo_data EFIS_PIXELS) = some l := by
          rw [← hc]; exact hl
        cases hq : (alloc_pixels s.xp11_atmo).1.pixels with
        | none => rw [hq] at hl2; cases hl2
        | some l0 =>
          rw [hq, Option.map_some'] at hl2
          rw [← Option.some.inj hl2]
          exact memcpy_length l0 _ _ (hal l0 hq)

/-- Invariant: while the region is empty there is no snapshot. -/
theorem reachable_zero_region (s : world_t) (hs : reachable s) :
    (s.xp11_atmo.efis_w = 0 ∨ s.xp11_atmo.efis_h = 0) → s.xp11_atmo.pixels = none := by
  refine reachable_invariant
    (fun s => (s.xp11_atmo.efis_w = 0 ∨ s.xp11_atmo.efis_h = 0) → s.xp11_atmo.pixels = none)
    ?_ ?_ s hs
  · intro w0 w1 hinit _
    rw [init_atmo w0 w1 hinit]
  · intro o s ih hz
    cases o with
    | set_range r => exact ih hz
    | set_efis_pos x y w h => rfl
    | tick h =>
      obtain ⟨-, -, -, e4, e5, -⟩ := update_cb_rest h s
      have hz2 : s.xp11_atmo.efis_w = 0 ∨ s.xp11_atmo.efis_h = 0 := by
        rcases hz with hz | hz
        · left; rw [← e4]; exact hz
        · right; rw [← e5]; exact hz
      have hn := ih hz2
      have hskip := update_cb_skip h s (Or.inr ⟨hn, hz2⟩)
      show (update_cb h s).world.xp11_atmo.pixels = none
      rw [hskip]
      exact hn

/-! ## Claims about the draw callback -/

theorem update_cb_issues_iff (h : host_t) (w : world_t) :
    issues_capture (update_cb h w) = true ↔
      h.render_type = XPLANE_RENDER_GAUGES_3D_LIT ∧
      (w.xp11_atmo.pixels ≠ none ∨ (w.xp11_atmo.efis_w ≠ 0 ∧ w.xp11_atmo.efis_h ≠ 0)) ∧
      w.xp11_atmo.xfer_sync = 0 ∧
      (w.xp11_atmo.last_update + UPD_INTVAL) % 2 ^ 64 ≤ h.now := by
  obtain ⟨-, b2, b3, -⟩ := alloc_pbo_rest h (alloc_pixels w.xp11_atmo).1
  obtain ⟨c1, c2, -⟩ := alloc_pixels_rest w.xp11_atmo
  by_cases h1 : h.render_type = XPLANE_RENDER_GAUGES_3D_LIT
  · by_cases h2 : (w.xp11_atmo.pixels = none ∧
        (w.xp11_atmo.efis_w = 0 ∨ w.xp11_atmo.efis_h = 0))
    · rw [update_cb_skip h w (Or.inr h2)]
      constructor
      · intro hi
        simp [issues_capture] at hi
      · rintro ⟨-, hr, -⟩
        exfalso
        rcases hr with hr | ⟨hr1, hr2⟩
        · exact hr h2.1
        · rcases h2.2 with hz | hz
          · exact hr1 hz
          · exact hr2 hz
    · have hready : w.xp11_atmo.pixels ≠ none ∨
          (w.xp11_atmo.efis_w ≠ 0 ∧ w.xp11_atmo.efis_h ≠ 0) := by
        by_cases hp : w.xp11_atmo.pixels = none
        · right
          constructor
          · intro hz; exact h2 ⟨hp, Or.inl hz⟩
          · intro hz; exact h2 ⟨hp, Or.inr hz⟩
        · exact Or.inl hp
      rw [update_cb_run h w h1 h2]
      simp only [issues_capture, List.any_append, alloc_pixels_calls, alloc_pbo_calls,
        update_efis_calls, Bool.or_false, Bool.false_or]
      rw [transfer_issues_iff, b2, b3, c1, c2]
      constructor
      · rintro ⟨hf, ht⟩
        exact ⟨h1, hready, hf, ht⟩
      · rintro ⟨-, -, hf, ht⟩
        exact ⟨hf, ht⟩
  · rw [update_cb_skip h w (Or.inl h1)]
    constructor
    · intro hi
      simp [issues_capture] at hi
    · rintro ⟨hr, -⟩
      exact absurd hr h1

theorem transfer_no_issue (h : host_t) (a : xp11_atmo_t) (d : Nat → Nat)
    (hno : (transfer h a d).2.2.any is_glReadPixels = false) :
    (transfer h a d).1.last_update = a.last_update ∧ (transfer h a d).2.1 = d := by
  unfold transfer at hno ⊢
  split_ifs at hno ⊢ <;> simp_all [is_glReadPixels]

/-- A tick that issues no capture leaves the last-issue time and the transfer
buffer alone. -/
theorem update_cb_no_issue (h : host_t) (w : world_t)
    (hno : issues_capture (update_cb h w) = false) :
    (update_cb h w).world.xp11_atmo.last_update = w.xp11_atmo.last_update ∧
    (update_cb h w).world.pbo_data = w.pbo_data := by
  by_cases h1 : h.render_type = XPLANE_RENDER_GAUGES_3D_LIT
  · by_cases h2 : (w.xp11_atmo.pixels = none ∧
        (w.xp11_atmo.efis_w = 0 ∨ w.xp11_atmo.efis_h = 0))
    · rw [update_cb_skip h w (Or.inr h2)]
      exact ⟨rfl, rfl⟩
    · rw [update_cb_run h w h1 h2] at hno ⊢
      simp only [issues_capture, List.any_append, alloc_pixels_calls, alloc_pbo_calls,
        update_efis_calls, Bool.or_false, Bool.false_or] at hno
      obtain ⟨t1, t2⟩ := transfer_no_issue _ _ _ hno
      obtain ⟨-, -, b3, -⟩ := alloc_pbo_rest h (alloc_pixels w.xp11_atmo).1
      obtain ⟨-, c2, -⟩ := alloc_pixels_rest w.xp11_atmo
      refine ⟨?_, t2⟩
      show (transfer h (alloc_pbo h (alloc_pixels w.xp11_atmo).1).1 w.pbo_data).1.last_update = _
      rw [t1, b3, c2]
  · rw [update_cb_skip h w (Or.inl h1)]
    exact ⟨rfl, rfl⟩

/-- What a tick that issues a capture writes. -/
theorem update_cb_issue_effect (h : host_t) (w : world_t)
    (hi : issues_capture (update_cb h w) = true) :
    (update_cb h w).world.pbo_data = h.framebuffer w.xp11_atmo.efis_x w.xp11_atmo.efis_y ∧
    (update_cb h w).world.xp11_atmo.xfer_sync = h.fence ∧
    (update_cb h w).world.xp11_atmo.last_update = h.now := by
  obtain ⟨h1, hr, hf, ht⟩ := (update_cb_issues_iff h w).mp hi
  have h2 : ¬ (w.xp11_atmo.pixels = none ∧
      (w.xp11_atmo.efis_w = 0 ∨ w.xp11_atmo.efis_h = 0)) := by
    rintro ⟨hn, hz⟩
    rcases hr with hr | ⟨hr1, hr2⟩
    · exact hr hn
    · rcases hz with hz | hz
      · exact hr1 hz
      · exact hr2 hz
  obtain ⟨-, b2, b3, -, b5, b6, -⟩ := alloc_pbo_rest h (alloc_pixels w.xp11_atmo).1
  obtain ⟨c1, c2, -, -, c5, c6, -⟩ := alloc_pixels_rest w.xp11_atmo
  rw [update_cb_run h w h1 h2,
    transfer_issue h _ w.pbo_data (by rw [b2, c1]; exact hf) (by rw [b3, c2]; exact ht)]
  refine ⟨?_, rfl, rfl⟩
  show h.framebuffer (alloc_pbo h (alloc_pixels w.xp11_atmo).1).1.efis_x
    (alloc_pbo h (alloc_pixels w.xp11_atmo).1).1.efis_y = _
  rw [b5, b6, c5, c6]

/-- Along a run, each issue time lies an interval (in `uint64_t` arithmetic)
after the one before, the first one after the state's `last_update`. -/
theorem issue_times_chain (ops : List op_t) (s : world_t) :
    List.Chain (fun t1 t2 => (t1 + UPD_INTVAL) % 2 ^ 64 ≤ t2) s.xp11_atmo.last_update
      (issue_times ops s) := by
  induction ops generalizing s with
  | nil => exact List.Chain.nil
  | cons o ops ih =>
    cases o with
    | set_range r => exact ih (atmo_xp11_set_range r s)
    | set_efis_pos x y w h => exact ih (atmo_xp11_set_efis_pos x y w h s)
    | tick h =>
      unfold issue_times
      by_cases hi : issues_capture (update_cb h s) = true
      · rw [if_pos hi]
        have ht := ((update_cb_issues_iff h s).mp hi).2.2.2
        have hl := (update_cb_issue_effect h s hi).2.2
        have ih2 := ih (update_cb h s).world
        rw [hl] at ih2
        exact List.Chain.cons ht ih2
      · rw [if_neg hi]
        have hl := (update_cb_no_issue h s (by simpa using hi)).1
        have ih2 := ih (update_cb h s).world
        rw [hl] at ih2
        exact ih2

/-- C11: a tick of `update_cb` issues a capture if and only if the render
phase is valid, a snapshot exists or the region size is non-zero, no fence is
outstanding when the tick starts, and `last_update + 500000 <= now`, the sum
being the `uint64_t` sum of line 328 (the plain sum as long as it stays below
`2 ^ 64`). An issuing tick reads the frame buffer at the region's origin into
the transfer buffer, records the fence `glFenceSync` returns and sets the
last-issue time to `now`. Hence a capture is only issued while no transfer is
in flight, and in every run from `atmo_xp11_init` each capture is issued at
least the interval after the one before. -/
theorem capture_issued_iff (h : host_t) (w : world_t) :
    (issues_capture (update_cb h w) = true ↔
      h.render_type = 2 ∧
      (w.xp11_atmo.pixels ≠ none ∨ (w.xp11_atmo.efis_w ≠ 0 ∧ w.xp11_atmo.efis_h ≠ 0)) ∧
      w.xp11_atmo.xfer_sync = 0 ∧
      (w.xp11_atmo.last_update + 500000) % 2 ^ 64 ≤ h.now) ∧
    (w.xp11_atmo.last_update + 500000 < 2 ^ 64 →
      (issues_capture (update_cb h w) = true ↔
        h.render_type = 2 ∧
        (w.xp11_atmo.pixels ≠ none ∨ (w.xp11_atmo.efis_w ≠ 0 ∧ w.xp11_atmo.efis_h ≠ 0)) ∧
        w.xp11_atmo.xfer_sync = 0 ∧
        w.xp11_atmo.last_update + 500000 ≤ h.now)) ∧
    (issues_capture (update_cb h w) = true →
      (update_cb h w).world.pbo_data = h.framebuffer w.xp11_atmo.efis_x w.xp11_atmo.efis_y ∧
      (update_cb h w).world.xp11_atmo.xfer_sync = h.fence ∧
      (update_cb h w).world.xp11_atmo.last_update = h.now) ∧
    (∀ w0 w1 ops, atmo_xp11_init w0 = some w1 →
      List.Chain (fun t1 t2 => (t1 + 500000) % 2 ^ 64 ≤ t2) 0 (issue_times ops w1)) := by
  have hiff := update_cb_issues_iff h w
  rw [show XPLANE_RENDER_GAUGES_3D_LIT = 2 from rfl, show UPD_INTVAL = 500000 from rfl] at hiff
  refine ⟨hiff, ?_, update_cb_issue_effect h w, ?_⟩
  · intro hlt
    rw [hiff, Nat.mod_eq_of_lt hlt]
  · intro w0 w1 ops hinit
    have hc := issue_times_chain ops w1
    rw [init_atmo w0 w1 hinit] at hc
    exact hc

/-- Witness of C11: from an idle world with a snapshot and `last_update = 0`,
the tick at time 600000 in the lit-gauges phase issues a capture. -/
theorem capture_issued_iff_witness :
    issues_capture (update_cb (lit_tick 600000 wait_t.GL_TIMEOUT_EXPIRED true)
      (uniform_world 0xff20b310)) = true :=
  (capture_issued_iff (lit_tick 600000 wait_t.GL_TIMEOUT_EXPIRED true)
    (uniform_world 0xff20b310)).1.mpr ⟨rfl, Or.inr ⟨by decide, by decide⟩, rfl, by decide⟩

/-- C12: a tick in which the render type is not 2 ("3-D lit gauges") changes
nothing (Snapshot, Region, Range, fence, last-issue time, transfer buffer,
display flags) and makes no call; and `update_cb` returns 1 on every call. -/
theorem wrong_phase_tick_noop (h : host_t) (w : world_t) :
    (update_cb h w).status = 1 ∧
    (h.render_type ≠ 2 → (update_cb h w).world = w ∧ (update_cb h w).calls = []) := by
  constructor
  · unfold update_cb
    split_ifs <;> rfl
  · intro hne
    rw [update_cb_skip h w (Or.inl hne)]
    exact ⟨rfl, rfl⟩

/-- Witness of C12: a tick with render type 1 ("3-D unlit gauges") on a world
with a fence outstanding and a signalled wait. -/
theorem wrong_phase_tick_noop_witness :
    (update_cb { lit_tick 600000 wait_t.GL_ALREADY_SIGNALED true with render_type := 1 }
      (pending_world 0 9)).world = pending_world 0 9 ∧
    (update_cb { lit_tick 600000 wait_t.GL_ALREADY_SIGNALED true with render_type := 1 }
      (pending_world 0 9)).calls = [] :=
  (wrong_phase_tick_noop
    { lit_tick 600000 wait_t.GL_ALREADY_SIGNALED true with render_type := 1 }
    (pending_world 0 9)).2 (by decide)

/-- C13: in every state reachable from `atmo_xp11_init`, a tick of `update_cb`
with the region width or height zero leaves the whole state unchanged and makes
no call (no allocation, no buffer creation, no capture, no poll, no display
flag written). -/
theorem zero_region_tick_noop (s : world_t) (h : host_t) (hs : reachable s)
    (hz : s.xp11_atmo.efis_w = 0 ∨ s.xp11_atmo.efis_h = 0) :
    (update_cb h s).world = s ∧ (update_cb h s).calls = [] := by
  rw [update_cb_skip h s (Or.inr ⟨reachable_zero_region s hs hz, hz⟩)]
  exact ⟨rfl, rfl⟩

/-- Witness of C13: after initialisation, a capture cycle on a 194 x 268 region
and a change to a region of height 0, a tick in the lit-gauges phase with a
signalled wait does nothing. -/
theorem zero_region_tick_noop_witness :
    (update_cb (lit_tick 700000 wait_t.GL_ALREADY_SIGNALED true)
      (run_ops [op_t.set_efis_pos 0 0 194 268,
        op_t.tick (lit_tick 600000 wait_t.GL_TIMEOUT_EXPIRED true),
        op_t.set_efis_pos 5 5 194 0] init_world)).world =
      run_ops [op_t.set_efis_pos 0 0 194 268,
        op_t.tick (lit_tick 600000 wait_t.GL_TIMEOUT_EXPIRED true),
        op_t.set_efis_pos 5 5 194 0] init_world ∧
    (update_cb (lit_tick 700000 wait_t.GL_ALREADY_SIGNALED true)
      (run_ops [op_t.set_efis_pos 0 0 194 268,
        op_t.tick (lit_tick 600000 wait_t.GL_TIMEOUT_EXPIRED true),
        op_t.set_efis_pos 5 5 194 0] init_world)).calls = [] :=
  zero_region_tick_noop _ (lit_tick 700000 wait_t.GL_ALREADY_SIGNALED true)
    (reachable_run _) (Or.inr rfl)

/-! ## Claims about the Range and the display flags -/

theorem run_ops_range (ops : List op_t) (s : world_t) :
    (run_ops ops s).xp11_atmo.range = last_set_range ops s.xp11_atmo.range := by
  induction ops generalizing s with
  | nil => rfl
  | cons o ops ih =>
    rw [run_ops_cons, ih]
    cases o with
    | set_range r => rfl
    | set_efis_pos x y w h => rfl
    | tick h =>
      show last_set_range ops (update_cb h s).world.xp11_atmo.range = _
      rw [(update_cb_rest h s).1]
      rfl

/-- Counterexample of C14: the state right after `atmo_xp11_init` is reachable
and its Range, the one a probe would divide by, is 0. -/
theorem range_positive_counterexample :
    reachable init_world ∧ ¬ (0 < init_world.xp11_atmo.range) :=
  ⟨reachable_init_world, by decide⟩

/-- C14 (amended): in every state reachable from `atmo_xp11_init` by a sequence
of `atmo_xp11_set_range`, `atmo_xp11_set_efis_pos` and `update_cb` calls, the
Range that a probe reads is the argument of the last `atmo_xp11_set_range`
call, and 0 when there has been none; so it is positive exactly when the last
`atmo_xp11_set_range` call passed a positive value. -/
theorem range_is_last_set (w0 w1 : world_t) (ops : List op_t)
    (hinit : atmo_xp11_init w0 = some w1) :
    (run_ops ops w1).xp11_atmo.range = last_set_range ops 0 ∧
    (0 < (run_ops ops w1).xp11_atmo.range ↔ 0 < last_set_range ops 0) := by
  have h := run_ops_range ops w1
  rw [init_atmo w0 w1 hinit] at h
  exact ⟨h, by rw [h]⟩

/-- Witness of C14 (amended): after `atmo_xp11_set_range(-5)`, a region change,
`atmo_xp11_set_range(18520)` and a tick, the Range is 18520. -/
theorem range_is_last_set_witness :
    (run_ops [op_t.set_range (-5), op_t.set_efis_pos 0 0 194 268, op_t.set_range 18520,
        op_t.tick (lit_tick 600000 wait_t.GL_TIMEOUT_EXPIRED true)] init_world).xp11_atmo.range =
      18520 :=
  (range_is_last_set boot_world init_world
    [op_t.set_range (-5), op_t.set_efis_pos 0 0 194 268, op_t.set_range 18520,
      op_t.tick (lit_tick 600000 wait_t.GL_TIMEOUT_EXPIRED true)] rfl).1

theorem update_efis_flags (a : xp11_atmo_t) (d : efis_drs_t) :
    (update_efis a d).1.mode = 1 ∧
    (update_efis a d).1.submode = 5 ∧
    (update_efis a d).1.range = (efis_map_range_select a : Nat) ∧
    (update_efis a d).1.shows_wx = 1 ∧
    (update_efis a d).1.wx_alpha = 1 ∧
    (update_efis a d).1.shows_tcas = 0 ∧
    (update_efis a d).1.shows_arpts = 0 ∧
    (update_efis a d).1.shows_wpts = 0 ∧
    (update_efis a d).1.shows_VORs = 0 ∧
    (update_efis a d).1.shows_NDBs = 0 ∧
    (update_efis a d).1.kill_map_fms_line ≠ 0 := by
  unfold update_efis
  simp only [EFIS_MODE_NORM, EFIS_SUBMODE_GOOD_MAP]
  refine ⟨?_, ?_, ?_, ?_, ?_, ?_, ?_, ?_, ?_, ?_, ?_⟩
  · split_ifs with hc
    · rfl
    · exact not_not.mp hc
  · split_ifs with hc
    · rfl
    · exact not_not.mp hc
  · split_ifs with hc
    · rfl
    · exact not_not.mp hc
  · split_ifs with hc
    · rfl
    · exact not_not.mp hc
  · split_ifs with hc
    · rfl
    · have := not_not.mp hc
      rw [this]; norm_num
  · split_ifs with hc
    · rfl
    · exact not_not.mp hc
  · split_ifs with hc
    · rfl
    · exact not_not.mp hc
  · split_ifs with hc
    · rfl
    · exact not_not.mp hc
  · split_ifs with hc
    · rfl
    · exact not_not.mp hc
  · split_ifs with hc
    · rfl
    · exact not_not.mp hc
  · split_ifs with hc
    · decide
    · exact hc

/-- C15: for every prior value of the display-mode flags, after a tick of
`update_cb` that passes the render-phase and region checks (so that
`update_efis` runs) the flags are: map mode 1, submode 5, range selector
`efis_map_range_select()` of the current Range, weather shown 1, weather alpha
1, `shows_tcas`, `shows_arpts`, `shows_wpts`, `shows_VORs`, `shows_NDBs` all 0,
and `kill_map_fms_line` non-zero. -/
theorem tick_forces_display_flags (h : host_t) (w : world_t)
    (hphase : h.render_type = 2)
    (hregion : w.xp11_atmo.pixels ≠ none ∨
      (w.xp11_atmo.efis_w ≠ 0 ∧ w.xp11_atmo.efis_h ≠ 0)) :
    (update_cb h w).world.EFIS = (update_efis (update_cb h w).world.xp11_atmo w.EFIS).1 ∧
    (update_cb h w).world.EFIS.mode = 1 ∧
    (update_cb h w).world.EFIS.submode = 5 ∧
    (update_cb h w).world.EFIS.range =
      (efis_map_range_select (update_cb h w).world.xp11_atmo : Nat) ∧
    (update_cb h w).world.EFIS.shows_wx = 1 ∧
    (update_cb h w).world.EFIS.wx_alpha = 1 ∧
    (update_cb h w).world.EFIS.shows_tcas = 0 ∧
    (update_cb h w).world.EFIS.shows_arpts = 0 ∧
    (update_cb h w).world.EFIS.shows_wpts = 0 ∧
    (update_cb h w).world.EFIS.shows_VORs = 0 ∧
    (update_cb h w).world.EFIS.shows_NDBs = 0 ∧
    (update_cb h w).world.EFIS.kill_map_fms_line ≠ 0 := by
  have h2 : ¬ (w.xp11_atmo.pixels = none ∧
      (w.xp11_atmo.efis_w = 0 ∨ w.xp11_atmo.efis_h = 0)) := by
    rintro ⟨hn, hz⟩
    rcases hregion with hr | ⟨hr1, hr2⟩
    · exact hr hn
    · rcases hz with hz | hz
      · exact hr1 hz
      · exact hr2 hz
  have he : (update_cb h w).world.EFIS =
      (update_efis (update_cb h w).world.xp11_atmo w.EFIS).1 := by
    rw [update_cb_run h w hphase h2]
  refine ⟨he, ?_⟩
  rw [he]
  exact update_efis_flags _ _

/-- Witness of C15: a tick in the lit-gauges phase on a world whose display
flags are all 0 and whose Range is 18520 m (tier 0). -/
theorem tick_forces_display_flags_witness :
    (update_cb (lit_tick 600000 wait_t.GL_TIMEOUT_EXPIRED true)
      (uniform_world 0)).world.EFIS.mode = 1 ∧
    (update_cb (lit_tick 600000 wait_t.GL_TIMEOUT_EXPIRED true)
      (uniform_world 0)).world.EFIS.shows_wx = 1 ∧
    (update_cb (lit_tick 600000 wait_t.GL_TIMEOUT_EXPIRED true)
      (uniform_world 0)).world.EFIS.kill_map_fms_line ≠ 0 :=
  have key := tick_forces_display_flags (lit_tick 600000 wait_t.GL_TIMEOUT_EXPIRED true)
    (uniform_world 0) rfl (Or.inr ⟨by decide, by decide⟩)
  ⟨key.2.1, key.2.2.2.2.1, key.2.2.2.2.2.2.2.2.2.2.2⟩

/-! ## Claims about stale and torn snapshots -/

theorem issue_times_tick (h : host_t) (ops : List op_t) (s : world_t) :
    issue_times (op_t.tick h :: ops) s =
      if issues_capture (update_cb h s) then h.now :: issue_times ops (update_cb h s).world
      else issue_times ops (update_cb h s).world := rfl

theorem issue_times_set_efis_pos (x y w h : Nat) (ops : List op_t) (s : world_t) :
    issue_times (op_t.set_efis_pos x y w h :: ops) s =
      issue_times ops (atmo_xp11_set_efis_pos x y w h s) := rfl

theorem issue_times_set_range (r : ℚ) (ops : List op_t) (s : world_t) :
    issue_times (op_t.set_range r :: ops) s = issue_times ops (atmo_xp11_set_range r s) := rfl

theorem update_cb_pending_no_issue (h : host_t) (s : world_t) (hf : s.xp11_atmo.xfer_sync ≠ 0) :
    issues_capture (update_cb h s) = false := by
  cases hi : issues_capture (update_cb h s) with
  | false => rfl
  | true => exact absurd ((update_cb_issues_iff h s).mp hi).2.2.1 hf

/-- C16 (the code at the failing input): after `stale_run` the region is the
rectangle at `(500, 500)`; the only capture of the run was issued at time
600000 by the tick before the region was moved, for the rectangle at `(0, 0)`;
and the Snapshot holds that capture (pixel `k` is `0 + 0 + k`): it is neither
all zero nor a capture of the current region (pixel `k` would be
`500 + 500 + k`). -/
theorem stale_capture_copied :
    (run_ops stale_run init_world).xp11_atmo.efis_x = 500 ∧
    (run_ops stale_run init_world).xp11_atmo.efis_y = 500 ∧
    issue_times (stale_run.take 2) init_world = [600000] ∧
    issue_times stale_run init_world = [600000] ∧
    (run_ops stale_run init_world).xp11_atmo.pixels =
      some ((List.range EFIS_PIXELS).map (fun k => 0 + 0 + k)) ∧
    (run_ops stale_run init_world).xp11_atmo.pixels ≠ some calloc_pixels ∧
    (run_ops stale_run init_world).xp11_atmo.pixels ≠
      some ((List.range EFIS_PIXELS).map (fun k => 500 + 500 + k)) := by
  have hp : (run_ops stale_run init_world).xp11_atmo.pixels =
      some ((List.range EFIS_PIXELS).map (fun k => 0 + 0 + k)) := by
    have h1 : (run_ops stale_run init_world).xp11_atmo.pixels =
        some (memcpy calloc_pixels (fun k => 0 + 0 + k) EFIS_PIXELS) := rfl
    rw [h1, memcpy_full calloc_pixels _ _ (List.length_replicate _ _)]
  have hi1 : issues_capture (update_cb (lit_tick 600000 wait_t.GL_TIMEOUT_EXPIRED true)
      (atmo_xp11_set_efis_pos 0 0 194 268 init_world)) = true := rfl
  have hi2 : issues_capture (update_cb (lit_tick 600100 wait_t.GL_ALREADY_SIGNALED true)
      (atmo_xp11_set_efis_pos 500 500 194 268
        (update_cb (lit_tick 600000 wait_t.GL_TIMEOUT_EXPIRED true)
          (atmo_xp11_set_efis_pos 0 0 194 268 init_world)).world)) = false :=
    update_cb_pending_no_issue _ _ (by decide)
  refine ⟨rfl, rfl, ?_, ?_, hp, ?_, ?_⟩
  · show issue_times [op_t.set_efis_pos 0 0 194 268,
      op_t.tick (lit_tick 600000 wait_t.GL_TIMEOUT_EXPIRED true)] init_world = [600000]
    rw [issue_times_set_efis_pos, issue_times_tick, if_pos hi1]
    rfl
  · unfold stale_run
    rw [issue_times_set_efis_pos, issue_times_tick, if_pos hi1, issue_times_set_efis_pos,
      issue_times_tick, if_neg (by rw [hi2]; decide)]
    rfl
  · rw [hp]
    intro heq
    have h1 := congrArg (fun l => l.getD 1 0) (Option.some.inj heq)
    simp only [calloc_pixels] at h1
    rw [getD_replicate_lt _ _ _ _ (by decide), map_range_getD _ _ _ (by decide)] at h1
    exact absurd h1 (by decide)
  · rw [hp]
    intro heq
    have h1 := congrArg (fun l => l.getD 0 0) (Option.some.inj heq)
    simp only at h1
    rw [map_range_getD _ _ _ (by decide), map_range_getD _ _ _ (by decide)] at h1
    exact absurd h1 (by decide)

theorem probe_racing_idle (xo yo : Nat → Int) (n : Nat) (w : world_t) (sl : scan_line_t) :
    probe_racing (fun _ => []) xo yo n (w, sl) = (w, probe_loop w.xp11_atmo xo yo sl n) := by
  induction n with
  | zero => rfl
  | succ n ih =>
    rw [probe_racing, ih]
    rfl

theorem probe_racing_zero (sched : Nat → List op_t) (xo yo : Nat → Int)
    (ws : world_t × scan_line_t) : probe_racing sched xo yo 0 ws = ws := rfl

theorem probe_racing_succ (sched : Nat → List op_t) (xo yo : Nat → Int) (n : Nat)
    (ws : world_t × scan_line_t) :
    probe_racing sched xo yo (n + 1) ws =
      (run_ops (sched n) (probe_racing sched xo yo n ws).1,
       probe_sample (run_ops (sched n) (probe_racing sched xo yo n ws).1).xp11_atmo xo yo
        (probe_racing sched xo yo n ws).2 n) := rfl

theorem run_ops_nil (s : world_t) : run_ops [] s = s := rfl

theorem tick_between_zero : tick_between 0 = [] := rfl

theorem tick_between_one :
    tick_between 1 = [op_t.tick (lit_tick 100 wait_t.GL_ALREADY_SIGNALED true)] := rfl

theorem sample_energy_uniform (a : xp11_atmo_t) (w : Nat) (x y : Int)
    (hp : a.pixels = some (List.replicate EFIS_PIXELS w)) (hin : ¬ out_of_bounds x y)
    (hidx : (y * EFIS_WIDTH + x).toNat < EFIS_PIXELS) :
    sample_energy a x y = spec_energy (bits w 0) (bits w 8) (bits w 16) (bits w 24) := by
  rw [sample_energy_in a _ x y hp hin, pixel_at_uniform w x y hidx]
  exact energy_classify_eq_spec _ _ _ _

theorem sample_energy_copied (a : xp11_atmo_t) (src : Nat → Nat) (x y : Int)
    (hp : a.pixels = some ((List.range EFIS_PIXELS).map src)) (hin : ¬ out_of_bounds x y)
    (hidx : (y * EFIS_WIDTH + x).toNat < EFIS_PIXELS) :
    sample_energy a x y =
      spec_energy (bits (src (y * EFIS_WIDTH + x).toNat) 0)
        (bits (src (y * EFIS_WIDTH + x).toNat) 8)
        (bits (src (y * EFIS_WIDTH + x).toNat) 16)
        (bits (src (y * EFIS_WIDTH + x).toNat) 24) := by
  rw [sample_energy_in a _ x y hp hin]
  have hpx : pixel_at ((List.range EFIS_PIXELS).map src) x y = src (y * EFIS_WIDTH + x).toNat :=
    map_range_getD src EFIS_PIXELS _ hidx
  rw [hpx]
  exact energy_classify_eq_spec _ _ _ _

/-- C17 (the code at the failing input): a probe of a two-sample scan line
whose samples both map to the pixel `(97, 134)`, with one tick of the draw
callback running between its two iterations. Before the tick the Snapshot is
the frame with every pixel `0xff0000ff` (energy 100), after it the frame with
every pixel `0xff20b310` (energy 50). The probe writes 100 for sample 0 and 50
for sample 1: the pixels read in this one call come from two frames, while a
probe of either frame alone writes the same energy twice. -/
theorem probe_reads_two_frames :
    (probe_racing tick_between (fun _ => 0) (fun _ => 0) 2
      (pending_world 0xff0000ff 9, blank_line 2)).2.energy_out 0 = 100 ∧
    (probe_racing tick_between (fun _ => 0) (fun _ => 0) 2
      (pending_world 0xff0000ff 9, blank_line 2)).2.energy_out 1 = 50 ∧
    (atmo_xp11_probe (pending_world 0xff0000ff 9).xp11_atmo (fun _ => 0) (fun _ => 0)
      (blank_line 2)).energy_out 0 = 100 ∧
    (atmo_xp11_probe (pending_world 0xff0000ff 9).xp11_atmo (fun _ => 0) (fun _ => 0)
      (blank_line 2)).energy_out 1 = 100 ∧
    (atmo_xp11_probe
      (update_cb (lit_tick 100 wait_t.GL_ALREADY_SIGNALED true)
        (pending_world 0xff0000ff 9)).world.xp11_atmo (fun _ => 0) (fun _ => 0)
      (blank_line 2)).energy_out 0 = 50 ∧
    (atmo_xp11_probe
      (update_cb (lit_tick 100 wait_t.GL_ALREADY_SIGNALED true)
        (pending_world 0xff0000ff 9)).world.xp11_atmo (fun _ => 0) (fun _ => 0)
      (blank_line 2)).energy_out 1 = 50 := by
  have hin : ¬ out_of_bounds ((0 : Int) + EFIS_LAT_PIX)
      ((0 : Int) + EFIS_LON_AFT) := by decide
  have hidx : (((0 : Int) + EFIS_LON_AFT) * EFIS_WIDTH +
      ((0 : Int) + EFIS_LAT_PIX)).toNat < EFIS_PIXELS := by decide
  have hA : sample_energy (pending_world 0xff0000ff 9).xp11_atmo
      ((0 : Int) + EFIS_LAT_PIX) ((0 : Int) + EFIS_LON_AFT) = 100 := by
    rw [sample_energy_uniform _ 0xff0000ff _ _ rfl hin hidx]
    norm_num [spec_energy, bits]
  have hpB : (update_cb (lit_tick 100 wait_t.GL_ALREADY_SIGNALED true)
      (pending_world 0xff0000ff 9)).world.xp11_atmo.pixels =
      some ((List.range EFIS_PIXELS).map (fun _ => 0xff20b310)) := by
    have h1 : (update_cb (lit_tick 100 wait_t.GL_ALREADY_SIGNALED true)
        (pending_world 0xff0000ff 9)).world.xp11_atmo.pixels =
        some (memcpy (List.replicate EFIS_PIXELS 0xff0000ff) (fun _ => 0xff20b310)
          EFIS_PIXELS) := rfl
    rw [h1, memcpy_full (List.replicate EFIS_PIXELS 0xff0000ff) _ _ (List.length_replicate _ _)]
  have hB : sample_energy (update_cb (lit_tick 100 wait_t.GL_ALREADY_SIGNALED true)
      (pending_world 0xff0000ff 9)).world.xp11_atmo
      ((0 : Int) + EFIS_LAT_PIX) ((0 : Int) + EFIS_LON_AFT) = 50 := by
    rw [sample_energy_copied _ (fun _ => 0xff20b310) _ _ hpB hin hidx]
    norm_num [spec_energy, bits]
  have hrace : probe_racing tick_between (fun _ => 0) (fun _ => 0) 2
      (pending_world 0xff0000ff 9, blank_line 2) =
      ((update_cb (lit_tick 100 wait_t.GL_ALREADY_SIGNALED true)
          (pending_world 0xff0000ff 9)).world,
       probe_sample (update_cb (lit_tick 100 wait_t.GL_ALREADY_SIGNALED true)
          (pending_world 0xff0000ff 9)).world.xp11_atmo (fun _ => 0) (fun _ => 0)
        (probe_sample (pending_world 0xff0000ff 9).xp11_atmo (fun _ => 0) (fun _ => 0)
          (blank_line 2) 0) 1) := by
    rw [probe_racing_succ, probe_racing_succ, probe_racing_zero, tick_between_zero,
      tick_between_one, run_ops_nil, run_ops_cons, run_ops_nil]
    rfl
  refine ⟨?_, ?_, ?_, ?_, ?_, ?_⟩
  · rw [hrace]
    simp only [probe_sample_energy]
    rw [if_pos trivial]
    exact hA
  · rw [hrace]
    simp only [probe_sample_energy]
    rw [if_pos trivial]
    exact hB
  · unfold atmo_xp11_probe
    simp only [probe_loop_energy]
    rw [if_pos (by decide)]
    exact hA
  · unfold atmo_xp11_probe
    simp only [probe_loop_energy]
    rw [if_pos (by decide)]
    exact hA
  · unfold atmo_xp11_probe
    simp only [probe_loop_energy]
    rw [if_pos (by decide)]
    exact hB
  · unfold atmo_xp11_probe
    simp only [probe_loop_energy]
    rw [if_pos (by decide)]
    exact hB

/-! ## Claims about the bounds of the pixel lookup -/

/-- C18: in every state reachable from `atmo_xp11_init`, a Snapshot that is
present holds exactly `194 * 268 = 51992` pixels, and every coordinate
`(x, y)` with `0 <= x < 194` and `0 <= y < 268` gives an index `y * 194 + x`
in `[0, 51992)`, inside the Snapshot. -/
theorem snapshot_index_in_bounds (s : world_t) (l : List Nat) (x y : Int)
    (hs : reachable s) (hl : s.xp11_atmo.pixels = some l)
    (hx0 : 0 ≤ x) (hx1 : x < 194) (hy0 : 0 ≤ y) (hy1 : y < 268) :
    l.length = 51992 ∧ 194 * 268 = 51992 ∧
    0 ≤ y * 194 + x ∧ y * 194 + x < 51992 ∧
    (y * EFIS_WIDTH + x).toNat < l.length := by
  have hlen : l.length = 51992 := reachable_pixels_length s hs l hl
  refine ⟨hlen, rfl, by nlinarith, by nlinarith, ?_⟩
  rw [hlen]
  have h1 : 0 ≤ y * 194 + x := by nlinarith
  have h2 : y * 194 + x < 51992 := by nlinarith
  show (y * 194 + x).toNat < 51992
  omega

/-- Witness of C18: the state after initialisation, a region of 194 x 268 and
one tick that allocates the Snapshot; the coordinate is the corner
`(193, 267)`. -/
theorem snapshot_index_in_bounds_witness :
    calloc_pixels.length = 51992 ∧ 194 * 268 = 51992 ∧
    (0 : Int) ≤ 267 * 194 + 193 ∧ (267 : Int) * 194 + 193 < 51992 ∧
    ((267 : Int) * EFIS_WIDTH + 193).toNat < calloc_pixels.length :=
  snapshot_index_in_bounds
    (run_ops [op_t.set_efis_pos 0 0 194 268,
      op_t.tick (lit_tick 600000 wait_t.GL_TIMEOUT_EXPIRED true)] init_world)
    calloc_pixels 193 267 (reachable_run _) rfl (by decide) (by decide) (by decide) (by decide)

/-! ## Claims about the sample coordinates -/

theorem double_to_int_intCast (k : Int) : double_to_int (k : ℚ) = k := by
  unfold double_to_int
  simp

theorem sample_offset_full_range (n : Nat) (r trig : ℚ) (hn : 1 ≤ n) (hr : 0 < r) :
    (((((n - 1 : Nat) : ℚ) + 1) / (n : ℚ)) * (r / r) * ((EFIS_LON_FWD : Int) : ℚ) * trig) =
      134 * trig := by
  have hn0 : (n : ℚ) ≠ 0 := by
    have : (0 : ℚ) < n := by exact_mod_cast hn
    exact ne_of_gt this
  have hr0 : r ≠ 0 := ne_of_gt hr
  have hcast : (((n - 1 : Nat) : ℚ) + 1) = n := by
    rw [Nat.cast_sub hn]
    simp
  rw [hcast, div_self hn0, div_self hr0]
  simp [EFIS_LON_FWD]

/-- C19: for a scan line at relative antenna heading 0 (`sin_rhdg = 0`,
`cos_rhdg = 1`) with `n >= 1` samples and a scan range equal to the positive
display Range, the last sample `n - 1` maps to the image coordinate
`(97, 268)`, which fails `y < 268`, and `atmo_xp11_probe` writes
`energy_out[n - 1] = 0` whatever the Snapshot holds. -/
theorem full_range_ahead_unsampled (a : xp11_atmo_t) (sl : scan_line_t) (sl_range : ℚ)
    (hn : 1 ≤ sl.num_samples) (hr : 0 < a.range) (hrange : sl_range = a.range) :
    sample_offset sl.num_samples sl_range a.range 0 (sl.num_samples - 1) + EFIS_LAT_PIX = 97 ∧
    sample_offset sl.num_samples sl_range a.range 1 (sl.num_samples - 1) + EFIS_LON_AFT = 268 ∧
    out_of_bounds
      (sample_offset sl.num_samples sl_range a.range 0 (sl.num_samples - 1) + EFIS_LAT_PIX)
      (sample_offset sl.num_samples sl_range a.range 1 (sl.num_samples - 1) + EFIS_LON_AFT) ∧
    (atmo_xp11_probe a (sample_offset sl.num_samples sl_range a.range 0)
      (sample_offset sl.num_samples sl_range a.range 1) sl).energy_out (sl.num_samples - 1)
      = 0 := by
  have hx : sample_offset sl.num_samples sl_range a.range 0 (sl.num_samples - 1) = 0 := by
    unfold sample_offset
    rw [hrange, sample_offset_full_range _ _ _ hn hr]
    have : (134 * 0 : ℚ) = ((0 : Int) : ℚ) := by norm_num
    rw [this, double_to_int_intCast]
  have hy : sample_offset sl.num_samples sl_range a.range 1 (sl.num_samples - 1) = 134 := by
    unfold sample_offset
    rw [hrange, sample_offset_full_range _ _ _ hn hr]
    have : (134 * 1 : ℚ) = ((134 : Int) : ℚ) := by norm_num
    rw [this, double_to_int_intCast]
  refine ⟨by rw [hx]; decide, by rw [hy]; decide, by rw [hx, hy]; decide, ?_⟩
  unfold atmo_xp11_probe
  rw [probe_loop_energy, if_pos (by omega), hx, hy]
  unfold sample_energy
  rw [if_pos (by decide)]

/-- Witness of C19: ten samples, scan range and display Range both 18520 m,
against an all-white opaque snapshot. -/
theorem full_range_ahead_unsampled_witness :
    (atmo_xp11_probe (uniform_atmo 0xffffffff) (sample_offset 10 18520 18520 0)
      (sample_offset 10 18520 18520 1) (blank_line 10)).energy_out 9 = 0 :=
  (full_range_ahead_unsampled (uniform_atmo 0xffffffff) (blank_line 10) 18520
    (by decide) (by norm_num [uniform_atmo]) rfl).2.2.2

end OpenWXR
